import Mathlib

/-!
# Data facade over a contiguous memory block

A shallow embedding of `include/engine/datafacade/contiguous_internalmem_datafacade.hpp`:
the attribute facade `ContiguousInternalMemoryDataFacadeBase`, its construction from a
dataset index (`InitializeInternalPointers`) and its accessors.

Conventions of the embedding.

* Unsigned machine integers (`NodeID`, `EdgeID`, `ClassData`, ...) are natural numbers; no
  arithmetic of the facade can overflow (the only additions are on indices that are widened
  before the addition).
* A `util::vector_view<T>` is a `List T`; an iterator into it is an index.
* A C++ exception is the `error` branch of `Except Error`.
* Reads that the C++ code performs without a check and that would leave the viewed array are
  the `Error.OutOfRange` failure: the embedding says nothing about what such a read yields.
-/

namespace Datafacade

/-! ## Identifiers and errors -/

abbrev NodeID := Nat
abbrev EdgeID := Nat
abbrev NameID := Nat
abbrev ClassData := Nat
abbrev LaneDescriptionID := Nat
abbrev EntryClassID := Nat
abbrev LaneDataID := Nat
abbrev TurnLaneMask := Nat

/-- The failures of the facade: `DatasetNotFound` is the exception of index resolution,
`DisabledDataset` is `osrm::util::DisabledDatasetException`, `LayoutMismatch` is a dataset whose
content does not have the layout the view factory expects, `AssertionFailed` is a failed
`BOOST_ASSERT` in a build with assertions, `OutOfRange` is an unchecked read outside an array. -/
inductive Error where
  | DatasetNotFound (name : String)
  | DisabledDataset (dataset : String)
  | LayoutMismatch (name : String)
  | AssertionFailed
  | OutOfRange
deriving DecidableEq, Repr

def DATASET_TURN_DATA : String := "TurnData"

def DATASET_TURN_LANE_DATA : String := "NameLaneData"

def DATASET_NAME_DATA : String := "NameData"

def DATASET_INTERSECTION_BEARINGS : String := "IntersectionBearings"

def DATASET_ENTRY_CLASS : String := "EntryClass"

/-- The macro `CHECK_DATASET_DISABLED(val, dataset)`: throws `DisabledDatasetException(dataset)`
when the optional `val` is empty; otherwise execution continues and `val` may be dereferenced,
which is the value returned here. -/
def CHECK_DATASET_DISABLED {α : Type} (val : Option α) (dataset : String) : Except Error α :=
  match val with
  | none => .error (.DisabledDataset dataset)
  | some v => .ok v

/-! ## Maneuver overrides -/

/-- The record `extractor::StorageManeuverOverride`, with the fields the facade reads. -/
structure StorageManeuverOverride where
  node_sequence_offset_begin : Nat
  node_sequence_offset_end : Nat
  start_node : NodeID
  instruction_node : NodeID
  override_type : Nat
  direction : Nat
deriving DecidableEq, Repr

/-- The record `extractor::ManeuverOverride` handed to the caller. -/
structure ManeuverOverride where
  node_sequence : List NodeID
  instruction_node : NodeID
  override_type : Nat
  direction : Nat
deriving DecidableEq, Repr

/-- First overload of the local `struct Comp`: `s.start_node < i`. -/
def Comp.elem_key (s : StorageManeuverOverride) (i : NodeID) : Bool :=
  decide (s.start_node < i)

/-- Second overload of the local `struct Comp`: `i < s.start_node`. -/
def Comp.key_elem (i : NodeID) (s : StorageManeuverOverride) : Bool :=
  decide (i < s.start_node)

/-! ## The standard algorithms used by the lookup

`std::lower_bound`, `std::upper_bound` and `std::equal_range` as implemented in libstdc++
(`bits/stl_algo.h`, `bits/stl_algobase.h`): a halving loop on `(first, len)`. The loop counter
`fuel` is started at `len`, which the loop at least halves in every iteration, so it never runs
out; the branch for an index outside the array is never taken, because `first + len` never
exceeds the size of the array. -/

/-- The loop of `std::__lower_bound`. -/
def lower_bound_loop {α β : Type} (comp : α → β → Bool) (xs : List α) (val : β) :
    Nat → Nat → Nat → Nat
  | 0, first, _ => first
  | fuel + 1, first, len =>
    if len = 0 then first
    else
      let half := len / 2
      let middle := first + half
      match xs[middle]? with
      | none => first
      | some m =>
        if comp m val then lower_bound_loop comp xs val fuel (middle + 1) (len - half - 1)
        else lower_bound_loop comp xs val fuel first half

/-- The call `std::lower_bound(first, last, val, comp)` on indices. -/
def lower_bound {α β : Type} (comp : α → β → Bool) (xs : List α) (first last : Nat) (val : β) :
    Nat :=
  lower_bound_loop comp xs val (last - first) first (last - first)

/-- The loop of `std::__upper_bound`. -/
def upper_bound_loop {α β : Type} (comp : β → α → Bool) (xs : List α) (val : β) :
    Nat → Nat → Nat → Nat
  | 0, first, _ => first
  | fuel + 1, first, len =>
    if len = 0 then first
    else
      let half := len / 2
      let middle := first + half
      match xs[middle]? with
      | none => first
      | some m =>
        if comp val m then upper_bound_loop comp xs val fuel first half
        else upper_bound_loop comp xs val fuel (middle + 1) (len - half - 1)

/-- The call `std::upper_bound(first, last, val, comp)` on indices. -/
def upper_bound {α β : Type} (comp : β → α → Bool) (xs : List α) (first last : Nat) (val : β) :
    Nat :=
  upper_bound_loop comp xs val (last - first) first (last - first)

/-- The loop of `std::__equal_range`: it narrows `(first, len)` until it meets an element
equivalent to `val`, then finishes with a lower bound on the left part and an upper bound on
the right part. -/
def equal_range_loop {α β : Type} (comp_it_val : α → β → Bool) (comp_val_it : β → α → Bool)
    (xs : List α) (val : β) : Nat → Nat → Nat → Nat × Nat
  | 0, first, _ => (first, first)
  | fuel + 1, first, len =>
    if len = 0 then (first, first)
    else
      let half := len / 2
      let middle := first + half
      match xs[middle]? with
      | none => (first, first)
      | some m =>
        if comp_it_val m val then
          equal_range_loop comp_it_val comp_val_it xs val fuel (middle + 1) (len - half - 1)
        else if comp_val_it val m then
          equal_range_loop comp_it_val comp_val_it xs val fuel first half
        else
          let left := lower_bound comp_it_val xs first middle val
          let right := upper_bound comp_val_it xs (middle + 1) (first + len) val
          (left, right)

/-- The call `std::equal_range(xs.begin(), xs.end(), val, comp)`, with the two overloads of the
heterogeneous comparator given separately. -/
def equal_range {α β : Type} (comp_it_val : α → β → Bool) (comp_val_it : β → α → Bool)
    (xs : List α) (val : β) : Nat × Nat :=
  equal_range_loop comp_it_val comp_val_it xs val xs.length 0 xs.length

/-- The range constructor `std::vector<T>(xs.begin() + b, xs.begin() + e)`: a copy of the
elements at positions `[b, e)`. The constructor is defined only for a valid range inside the
array. -/
def vector_from_range {α : Type} (xs : List α) (b e : Nat) : Except Error (List α) :=
  if b ≤ e ∧ e ≤ xs.length then .ok ((xs.drop b).take (e - b)) else .error .OutOfRange

/-- The call `std::for_each(first, last, f)` for a body `f` that updates a captured state. -/
def for_each {α σ : Type} (xs : List α) (first last : Nat) (f : σ → α → Except Error σ)
    (init : σ) : Except Error σ :=
  ((xs.drop first).take (last - first)).foldlM f init

/-- The body of the lambda in `GetOverridesThatStartAt`: materialise the node sequence of
`override` and push the expanded override to the back of `results`. -/
def push_override (node_sequences : List NodeID) (results : List ManeuverOverride)
    (override : StorageManeuverOverride) : Except Error (List ManeuverOverride) := do
  let sequence ← vector_from_range node_sequences
    override.node_sequence_offset_begin override.node_sequence_offset_end
  pure (results ++ [{ node_sequence := sequence,
                      instruction_node := override.instruction_node,
                      override_type := override.override_type,
                      direction := override.direction }])

/-- The body of `GetOverridesThatStartAt` on the two views it reads,
`m_maneuver_overrides` and `m_maneuver_override_node_sequences`. -/
def overrides_that_start_at (maneuver_overrides : List StorageManeuverOverride)
    (node_sequences : List NodeID) (edge_based_node_id : NodeID) :
    Except Error (List ManeuverOverride) :=
  let found_range := equal_range Comp.elem_key Comp.key_elem maneuver_overrides edge_based_node_id
  for_each maneuver_overrides found_range.1 found_range.2 (push_override node_sequences) []

/-! ## Views over the datasets

The view types are declared in other headers of the repository; a view is represented by the
accessors the facade calls on it. -/

/-- The value `guidance::TurnInstruction`: a turn type and a direction modifier. -/
structure TurnInstruction where
  turn_type : Nat
  direction_modifier : Nat
deriving DecidableEq, Repr

/-- The value `util::guidance::LaneTupleIdPair`. -/
structure LaneTupleIdPair where
  first : Nat
  second : Nat
deriving DecidableEq, Repr

abbrev EntryClass := Nat
abbrev BearingClass := List Nat
abbrev TurnBearing := Nat
abbrev TurnLaneDescription := List TurnLaneMask

/-- A value of the C++ type `double`, kept as its 64-bit pattern: the facade hands such values
on and computes with none of them. -/
structure Double where
  bits : Nat
deriving DecidableEq, Repr

/-- The block `extractor::ProfileProperties`, with the members and member functions the facade
reads. -/
structure ProfileProperties where
  excludable_classes : List ClassData
  continue_straight_at_waypoint : Bool
  weight_name : String
  weight_precision : Nat
  max_speed_for_map_matching : Double
  GetWeightMultiplier : Double
  GetClassName : Nat → String

/-- The view `guidance::TurnDataView`. -/
structure TurnDataView where
  GetTurnInstruction : EdgeID → TurnInstruction
  GetEntryClassID : EdgeID → EntryClassID
  GetPreTurnBearing : EdgeID → TurnBearing
  GetPostTurnBearing : EdgeID → TurnBearing
  HasLaneData : EdgeID → Bool
  GetLaneDataID : EdgeID → LaneDataID

/-- The view `extractor::NameTableView`. -/
structure NameTableView where
  GetNameForID : NameID → String
  GetRefForID : NameID → String
  GetPronunciationForID : NameID → String
  GetDestinationsForID : NameID → String
  GetExitsForID : NameID → String

/-- The view `extractor::EdgeBasedNodeDataView`. -/
structure EdgeBasedNodeDataView where
  GetGeometryID : NodeID → Nat
  GetComponentID : NodeID → Nat
  GetTravelMode : NodeID → Nat
  GetClassData : NodeID → ClassData
  GetNameID : NodeID → NameID
  IsLeftHandDriving : NodeID → Bool
  IsSegregated : NodeID → Bool

/-- The view `extractor::IntersectionBearingsView`. -/
structure IntersectionBearingsView where
  GetBearingClass : NodeID → BearingClass

/-- The view `extractor::SegmentDataView`. -/
structure SegmentDataView where
  GetForwardGeometry : Nat → List NodeID
  GetReverseGeometry : Nat → List NodeID
  GetForwardDurations : Nat → List Nat
  GetReverseDurations : Nat → List Nat
  GetForwardWeights : Nat → List Nat
  GetReverseWeights : Nat → List Nat
  GetForwardDatasources : Nat → List Nat
  GetReverseDatasources : Nat → List Nat

/-- The block `extractor::Datasources`. -/
structure Datasources where
  GetSourceName : Nat → String

/-- The view `util::StaticRTree<RTreeLeaf, Ownership::View>`: the leaves of the search tree,
each the pair of node ids of a road segment. -/
structure SharedRTree where
  leaves : List (NodeID × NodeID)

/-- A coordinate `util::Coordinate`: fixed-point longitude and latitude. -/
structure Coordinate where
  lon : Int
  lat : Int
deriving DecidableEq, Repr

/-! ## The dataset index -/

/-- The typed content of one dataset of the contiguous block, as the view factory reads it. -/
inductive Block where
  | properties (p : ProfileProperties)
  | uint32 (v : Nat)
  | timestamp (s : String)
  | nbn_data (coordinates : List Coordinate) (osm_node_ids : List Nat)
  | rtree (t : SharedRTree)
  | ebn_data (v : EdgeBasedNodeDataView)
  | turn_data (v : TurnDataView)
  | names (v : NameTableView)
  | turn_lanes (offsets : List Nat) (masks : List TurnLaneMask) (pairs : List LaneTupleIdPair)
  | turn_penalty (weights : List Nat) (durations : List Nat)
  | segment_data (v : SegmentDataView)
  | datasources (v : Datasources)
  | intersection_bearings (v : IntersectionBearingsView)
  | entry_classes (v : List EntryClass)
  | maneuver_overrides (overrides : List StorageManeuverOverride) (node_sequences : List NodeID)

/-- Modelled from the spec: the Dataset Index (`storage::SharedDataIndex`, declared outside the
files at hand). It maps a dataset name to an entry; a name resolves to one entry or is absent.
The byte range of an entry is represented by the typed content found there. -/
structure SharedDataIndex where
  entries : List (String × Block)

/-- Modelled from the spec: `resolve(name)` of the Dataset Index, which fails with
`DatasetNotFound` if the name is absent. -/
def SharedDataIndex.resolve (index : SharedDataIndex) (name : String) : Except Error Block :=
  match index.entries.lookup name with
  | some b => .ok b
  | none => .error (.DatasetNotFound name)

/-- Modelled from the spec: the listing `index.List(name, out)` behind the existence query of the
Dataset Index: it writes to `out` the entries of the index that go by `name`. -/
def SharedDataIndex.List (index : SharedDataIndex) (name : String) : List String :=
  (index.entries.filter (fun entry => entry.1 == name)).map (fun entry => entry.1)

/-- The call `index.GetBlockPtr<T>(name)`: resolve the name and read the block as a `T`. -/
def SharedDataIndex.GetBlockPtr {T : Type} (index : SharedDataIndex) (as : Block → Option T)
    (name : String) : Except Error T :=
  match index.resolve name with
  | .error e => .error e
  | .ok b =>
    match as b with
    | some v => .ok v
    | none => .error (.LayoutMismatch name)

def Block.as_properties : Block → Option ProfileProperties
  | .properties p => some p
  | _ => none

def Block.as_uint32 : Block → Option Nat
  | .uint32 v => some v
  | _ => none

def Block.as_datasources : Block → Option Datasources
  | .datasources v => some v
  | _ => none

def Block.as_timestamp : Block → Option String
  | .timestamp s => some s
  | _ => none

def Block.as_nbn_data : Block → Option (List Coordinate × List Nat)
  | .nbn_data c o => some (c, o)
  | _ => none

def Block.as_rtree : Block → Option SharedRTree
  | .rtree t => some t
  | _ => none

def Block.as_ebn_data : Block → Option EdgeBasedNodeDataView
  | .ebn_data v => some v
  | _ => none

def Block.as_turn_data : Block → Option TurnDataView
  | .turn_data v => some v
  | _ => none

def Block.as_names : Block → Option NameTableView
  | .names v => some v
  | _ => none

def Block.as_turn_lane_descriptions : Block → Option (List Nat × List TurnLaneMask)
  | .turn_lanes o m _ => some (o, m)
  | _ => none

def Block.as_lane_data : Block → Option (List LaneTupleIdPair)
  | .turn_lanes _ _ p => some p
  | _ => none

def Block.as_turn_weight : Block → Option (List Nat)
  | .turn_penalty w _ => some w
  | _ => none

def Block.as_turn_duration : Block → Option (List Nat)
  | .turn_penalty _ d => some d
  | _ => none

def Block.as_segment_data : Block → Option SegmentDataView
  | .segment_data v => some v
  | _ => none

def Block.as_intersection_bearings : Block → Option IntersectionBearingsView
  | .intersection_bearings v => some v
  | _ => none

def Block.as_entry_classes : Block → Option (List EntryClass)
  | .entry_classes v => some v
  | _ => none

def Block.as_maneuver_overrides : Block → Option (List StorageManeuverOverride × List NodeID)
  | .maneuver_overrides o s => some (o, s)
  | _ => none

/-! The factories of `storage/view_factory.hpp`: each resolves its dataset in the index and
reinterprets the block as the view. -/

def make_timestamp_view (index : SharedDataIndex) (name : String) : Except Error String :=
  index.GetBlockPtr Block.as_timestamp name

def make_nbn_data_view (index : SharedDataIndex) (name : String) :
    Except Error (List Coordinate × List Nat) :=
  index.GetBlockPtr Block.as_nbn_data name

def make_search_tree_view (index : SharedDataIndex) (name : String) : Except Error SharedRTree :=
  index.GetBlockPtr Block.as_rtree name

def make_ebn_data_view (index : SharedDataIndex) (name : String) :
    Except Error EdgeBasedNodeDataView :=
  index.GetBlockPtr Block.as_ebn_data name

def make_turn_data_view (index : SharedDataIndex) (name : String) : Except Error TurnDataView :=
  index.GetBlockPtr Block.as_turn_data name

def make_name_table_view (index : SharedDataIndex) (name : String) : Except Error NameTableView :=
  index.GetBlockPtr Block.as_names name

def make_turn_lane_description_views (index : SharedDataIndex) (name : String) :
    Except Error (List Nat × List TurnLaneMask) :=
  index.GetBlockPtr Block.as_turn_lane_descriptions name

def make_lane_data_view (index : SharedDataIndex) (name : String) :
    Except Error (List LaneTupleIdPair) :=
  index.GetBlockPtr Block.as_lane_data name

def make_turn_weight_view (index : SharedDataIndex) (name : String) : Except Error (List Nat) :=
  index.GetBlockPtr Block.as_turn_weight name

def make_turn_duration_view (index : SharedDataIndex) (name : String) : Except Error (List Nat) :=
  index.GetBlockPtr Block.as_turn_duration name

def make_segment_data_view (index : SharedDataIndex) (name : String) :
    Except Error SegmentDataView :=
  index.GetBlockPtr Block.as_segment_data name

def make_intersection_bearings_view (index : SharedDataIndex) (name : String) :
    Except Error IntersectionBearingsView :=
  index.GetBlockPtr Block.as_intersection_bearings name

def make_entry_classes_view (index : SharedDataIndex) (name : String) :
    Except Error (List EntryClass) :=
  index.GetBlockPtr Block.as_entry_classes name

def make_maneuver_overrides_views (index : SharedDataIndex) (name : String) :
    Except Error (List StorageManeuverOverride × List NodeID) :=
  index.GetBlockPtr Block.as_maneuver_overrides name

/-- An unchecked subscript `xs[i]` or `xs.at(i)` of an array or array view. -/
def subscript {α : Type} (xs : List α) (i : Nat) : Except Error α :=
  match xs[i]? with
  | some v => .ok v
  | none => .error .OutOfRange

/-- The macro `BOOST_ASSERT(cond)`: it aborts in a build with assertions and is empty in a
build without them. -/
def BOOST_ASSERT (assertions : Bool) (cond : Bool) : Except Error Unit :=
  if assertions && !cond then .error .AssertionFailed else .ok ()

/-! ## The attribute facade -/

/-- The data members of `ContiguousInternalMemoryDataFacadeBase`. -/
structure ContiguousInternalMemoryDataFacadeBase where
  exclude_mask : ClassData
  m_profile_properties : ProfileProperties
  m_datasources : Datasources
  m_check_sum : Nat
  m_data_timestamp : String
  m_coordinate_list : List Coordinate
  m_osmnodeid_list : List Nat
  m_lane_description_offsets : Option (List Nat)
  m_lane_description_masks : Option (List TurnLaneMask)
  m_turn_weight_penalties : List Nat
  m_turn_duration_penalties : List Nat
  segment_data : SegmentDataView
  edge_based_node_data : EdgeBasedNodeDataView
  turn_data : Option TurnDataView
  m_lane_tuple_id_pairs : Option (List LaneTupleIdPair)
  m_maneuver_overrides : List StorageManeuverOverride
  m_maneuver_override_node_sequences : List NodeID
  m_static_rtree : SharedRTree
  intersection_bearings_view : Option IntersectionBearingsView
  m_name_table : Option NameTableView
  m_entry_class_table : Option (List EntryClass)

/-- The member `isIndexed`: `result` starts as `false` and is set to `true` for every name the
listing writes. -/
def isIndexed (index : SharedDataIndex) (name : String) : Bool :=
  (index.List name).foldl (fun _ _ => true) false

/-- The member `InitializeInternalPointers`, run by the constructor on the index of the
allocator. Its statements are taken in the order of the source; the first one that throws ends
the construction. `assertions` tells whether the build has `BOOST_ASSERT` enabled. -/
def InitializeInternalPointers (assertions : Bool) (index : SharedDataIndex)
    (metric_name : String) (exclude_index : Nat) :
    Except Error ContiguousInternalMemoryDataFacadeBase := do
  let _ := metric_name
  let m_profile_properties ← index.GetBlockPtr Block.as_properties "/common/properties"
  let exclude_mask ← subscript m_profile_properties.excludable_classes exclude_index
  let m_check_sum ←
    (if isIndexed index "/mld/connectivity_checksum" then
      index.GetBlockPtr Block.as_uint32 "/mld/connectivity_checksum"
    else do
      BOOST_ASSERT assertions (isIndexed index "/ch/connectivity_checksum")
      index.GetBlockPtr Block.as_uint32 "/ch/connectivity_checksum")
  let m_data_timestamp ← make_timestamp_view index "/common/timestamp"
  let nbn_data ← make_nbn_data_view index "/common/nbn_data"
  let m_static_rtree ← make_search_tree_view index "/common/rtree"
  let edge_based_node_data ← make_ebn_data_view index "/common/ebg_node_data"
  let turn_data ←
    (if isIndexed index "/common/turn_data" then do
      let view ← make_turn_data_view index "/common/turn_data"
      pure (some view)
    else pure none)
  let m_name_table ←
    (if isIndexed index "/common/names" then do
      let view ← make_name_table_view index "/common/names"
      pure (some view)
    else pure none)
  let turn_lanes ←
    (if isIndexed index "/common/turn_lanes" then do
      let descriptions ← make_turn_lane_description_views index "/common/turn_lanes"
      let pairs ← make_lane_data_view index "/common/turn_lanes"
      pure (some descriptions.1, some descriptions.2, some pairs)
    else pure (none, none, none))
  let m_turn_weight_penalties ← make_turn_weight_view index "/common/turn_penalty"
  let m_turn_duration_penalties ← make_turn_duration_view index "/common/turn_penalty"
  let segment_data ← make_segment_data_view index "/common/segment_data"
  let m_datasources ← index.GetBlockPtr Block.as_datasources "/common/data_sources_names"
  let bearings ←
    (if isIndexed index "/common/intersection_bearings" then do
      let view ← make_intersection_bearings_view index "/common/intersection_bearings"
      let table ← make_entry_classes_view index "/common/entry_classes"
      pure (some view, some table)
    else pure (none, none))
  let maneuver_overrides ← make_maneuver_overrides_views index "/common/maneuver_overrides"
  pure { exclude_mask := exclude_mask
         m_profile_properties := m_profile_properties
         m_datasources := m_datasources
         m_check_sum := m_check_sum
         m_data_timestamp := m_data_timestamp
         m_coordinate_list := nbn_data.1
         m_osmnodeid_list := nbn_data.2
         m_lane_description_offsets := turn_lanes.1
         m_lane_description_masks := turn_lanes.2.1
         m_turn_weight_penalties := m_turn_weight_penalties
         m_turn_duration_penalties := m_turn_duration_penalties
         segment_data := segment_data
         edge_based_node_data := edge_based_node_data
         turn_data := turn_data
         m_lane_tuple_id_pairs := turn_lanes.2.2
         m_maneuver_overrides := maneuver_overrides.1
         m_maneuver_override_node_sequences := maneuver_overrides.2
         m_static_rtree := m_static_rtree
         intersection_bearings_view := bearings.1
         m_name_table := m_name_table
         m_entry_class_table := bearings.2 }

def GetTurnInstructionForEdgeID (f : ContiguousInternalMemoryDataFacadeBase)
    (edge_based_edge_id : EdgeID) : Except Error TurnInstruction := do
  let turn_data ← CHECK_DATASET_DISABLED f.turn_data DATASET_TURN_DATA
  pure (turn_data.GetTurnInstruction edge_based_edge_id)

def GetCheckSum (f : ContiguousInternalMemoryDataFacadeBase) : Nat :=
  f.m_check_sum

def GetClassData (f : ContiguousInternalMemoryDataFacadeBase) (edge_based_node_id : NodeID) :
    ClassData :=
  f.edge_based_node_data.GetClassData edge_based_node_id

def ExcludeNode (f : ContiguousInternalMemoryDataFacadeBase) (edge_based_node_id : NodeID) :
    Bool :=
  decide ((f.edge_based_node_data.GetClassData edge_based_node_id &&& f.exclude_mask) > 0)

def GetNameForID (f : ContiguousInternalMemoryDataFacadeBase) (id : NameID) :
    Except Error String := do
  let m_name_table ← CHECK_DATASET_DISABLED f.m_name_table DATASET_NAME_DATA
  pure (m_name_table.GetNameForID id)

def GetRefForID (f : ContiguousInternalMemoryDataFacadeBase) (id : NameID) :
    Except Error String := do
  let m_name_table ← CHECK_DATASET_DISABLED f.m_name_table DATASET_NAME_DATA
  pure (m_name_table.GetRefForID id)

def GetPronunciationForID (f : ContiguousInternalMemoryDataFacadeBase) (id : NameID) :
    Except Error String := do
  let m_name_table ← CHECK_DATASET_DISABLED f.m_name_table DATASET_NAME_DATA
  pure (m_name_table.GetPronunciationForID id)

def GetDestinationsForID (f : ContiguousInternalMemoryDataFacadeBase) (id : NameID) :
    Except Error String := do
  let m_name_table ← CHECK_DATASET_DISABLED f.m_name_table DATASET_NAME_DATA
  pure (m_name_table.GetDestinationsForID id)

def GetExitsForID (f : ContiguousInternalMemoryDataFacadeBase) (id : NameID) :
    Except Error String := do
  let m_name_table ← CHECK_DATASET_DISABLED f.m_name_table DATASET_NAME_DATA
  pure (m_name_table.GetExitsForID id)

def GetBearingClass (f : ContiguousInternalMemoryDataFacadeBase) (node_based_node_id : NodeID) :
    Except Error BearingClass := do
  let intersection_bearings_view ←
    CHECK_DATASET_DISABLED f.intersection_bearings_view DATASET_INTERSECTION_BEARINGS
  pure (intersection_bearings_view.GetBearingClass node_based_node_id)

def PreTurnBearing (f : ContiguousInternalMemoryDataFacadeBase) (edge_based_edge_id : EdgeID) :
    Except Error TurnBearing := do
  let turn_data ← CHECK_DATASET_DISABLED f.turn_data DATASET_TURN_DATA
  pure (turn_data.GetPreTurnBearing edge_based_edge_id)

def PostTurnBearing (f : ContiguousInternalMemoryDataFacadeBase) (edge_based_edge_id : EdgeID) :
    Except Error TurnBearing := do
  let turn_data ← CHECK_DATASET_DISABLED f.turn_data DATASET_TURN_DATA
  pure (turn_data.GetPostTurnBearing edge_based_edge_id)

def GetEntryClass (f : ContiguousInternalMemoryDataFacadeBase) (edge_based_edge_id : EdgeID) :
    Except Error EntryClass := do
  let m_entry_class_table ← CHECK_DATASET_DISABLED f.m_entry_class_table DATASET_ENTRY_CLASS
  let turn_data ← CHECK_DATASET_DISABLED f.turn_data DATASET_TURN_DATA
  let entry_class_id := turn_data.GetEntryClassID edge_based_edge_id
  subscript m_entry_class_table entry_class_id

def HasLaneData (f : ContiguousInternalMemoryDataFacadeBase) (edge_based_edge_id : EdgeID) :
    Except Error Bool := do
  let turn_data ← CHECK_DATASET_DISABLED f.turn_data DATASET_TURN_DATA
  pure (turn_data.HasLaneData edge_based_edge_id)

/-- The accessor `GetTurnDescription`. The constant `INVALID_LANE_DESCRIPTIONID` is declared in
`util/typedefs.hpp` and is taken as a parameter. The sum `lane_description_id + 1` is computed
after integer promotion, so it does not wrap. -/
def GetTurnDescription (INVALID_LANE_DESCRIPTIONID : LaneDescriptionID)
    (f : ContiguousInternalMemoryDataFacadeBase) (lane_description_id : LaneDescriptionID) :
    Except Error TurnLaneDescription := do
  let m_lane_description_offsets ←
    CHECK_DATASET_DISABLED f.m_lane_description_offsets DATASET_TURN_LANE_DATA
  let m_lane_description_masks ←
    CHECK_DATASET_DISABLED f.m_lane_description_masks DATASET_TURN_LANE_DATA
  if lane_description_id = INVALID_LANE_DESCRIPTIONID then
    pure []
  else do
    let first ← subscript m_lane_description_offsets lane_description_id
    let last ← subscript m_lane_description_offsets (lane_description_id + 1)
    vector_from_range m_lane_description_masks first last

def GetOverridesThatStartAt (f : ContiguousInternalMemoryDataFacadeBase)
    (edge_based_node_id : NodeID) : Except Error (List ManeuverOverride) :=
  overrides_that_start_at f.m_maneuver_overrides f.m_maneuver_override_node_sequences
    edge_based_node_id

/-- The constructor of `ContiguousInternalMemoryDataFacadeBase`: the allocator hands over its
index and `InitializeInternalPointers` fills the members. -/
def construct (assertions : Bool) (allocator_index : SharedDataIndex) (metric_name : String)
    (exclude_index : Nat) : Except Error ContiguousInternalMemoryDataFacadeBase :=
  InitializeInternalPointers assertions allocator_index metric_name exclude_index

/-! ## The reading of the override lookup -/

/-- The override handed out for the table entry `s`: its node sequence is the slice
`[s.node_sequence_offset_begin, s.node_sequence_offset_end)` of the node-sequence array and its
other fields are those of `s`. -/
def expanded (node_sequences : List NodeID) (s : StorageManeuverOverride) : ManeuverOverride :=
  { node_sequence := (node_sequences.drop s.node_sequence_offset_begin).take
      (s.node_sequence_offset_end - s.node_sequence_offset_begin)
    instruction_node := s.instruction_node
    override_type := s.override_type
    direction := s.direction }

/-- The entry `s` names a range of the node-sequence array. -/
def spans (node_sequences : List NodeID) (s : StorageManeuverOverride) : Prop :=
  s.node_sequence_offset_begin ≤ s.node_sequence_offset_end ∧
    s.node_sequence_offset_end ≤ node_sequences.length

instance (node_sequences : List NodeID) (s : StorageManeuverOverride) :
    Decidable (spans node_sequences s) := by
  unfold spans
  infer_instance

/-- The entries of the table that `GetOverridesThatStartAt` visits: those inside the range
found by `std::equal_range`. -/
def selected (maneuver_overrides : List StorageManeuverOverride) (edge_based_node_id : NodeID) :
    List StorageManeuverOverride :=
  let found_range := equal_range Comp.elem_key Comp.key_elem maneuver_overrides edge_based_node_id
  (maneuver_overrides.drop found_range.1).take (found_range.2 - found_range.1)

/-! ## Sample data -/

def sample_overrides : List StorageManeuverOverride :=
  [ { node_sequence_offset_begin := 0, node_sequence_offset_end := 2, start_node := 1,
      instruction_node := 10, override_type := 1, direction := 0 },
    { node_sequence_offset_begin := 2, node_sequence_offset_end := 5, start_node := 3,
      instruction_node := 11, override_type := 2, direction := 1 },
    { node_sequence_offset_begin := 5, node_sequence_offset_end := 6, start_node := 3,
      instruction_node := 12, override_type := 3, direction := 2 },
    { node_sequence_offset_begin := 6, node_sequence_offset_end := 8, start_node := 5,
      instruction_node := 13, override_type := 4, direction := 3 } ]

def sample_node_sequences : List NodeID := [1, 20, 3, 30, 31, 3, 5, 50]

def sample_properties : ProfileProperties :=
  { excludable_classes := [0, 1, 2, 4, 0, 0, 0, 0]
    continue_straight_at_waypoint := true
    weight_name := "duration"
    weight_precision := 1
    max_speed_for_map_matching := { bits := 4640889047261118464 }
    GetWeightMultiplier := { bits := 4621819117588971520 }
    GetClassName := fun index => if index = 0 then "toll" else "ferry" }

def sample_turn_data : TurnDataView :=
  { GetTurnInstruction := fun e => { turn_type := e % 4, direction_modifier := e % 3 }
    GetEntryClassID := fun e => e % 2
    GetPreTurnBearing := fun e => e
    GetPostTurnBearing := fun e => e + 90
    HasLaneData := fun e => e % 2 == 0
    GetLaneDataID := fun _ => 0 }

def sample_names : NameTableView :=
  { GetNameForID := fun id => if id = 0 then "" else "Main Street"
    GetRefForID := fun _ => "A1"
    GetPronunciationForID := fun _ => ""
    GetDestinationsForID := fun _ => "Centre"
    GetExitsForID := fun _ => "12" }

def sample_ebn_data : EdgeBasedNodeDataView :=
  { GetGeometryID := fun n => n
    GetComponentID := fun _ => 0
    GetTravelMode := fun _ => 1
    GetClassData := fun n => n % 8
    GetNameID := fun n => n
    IsLeftHandDriving := fun _ => false
    IsSegregated := fun _ => false }

def sample_bearings : IntersectionBearingsView :=
  { GetBearingClass := fun n => [0, 90 + n] }

def sample_segment_data : SegmentDataView :=
  { GetForwardGeometry := fun id => [id, id + 1]
    GetReverseGeometry := fun id => [id + 1, id]
    GetForwardDurations := fun _ => [10]
    GetReverseDurations := fun _ => [12]
    GetForwardWeights := fun _ => [10]
    GetReverseWeights := fun _ => [12]
    GetForwardDatasources := fun _ => [0]
    GetReverseDatasources := fun _ => [0] }

def sample_datasources : Datasources :=
  { GetSourceName := fun _ => "lua profile" }

def sample_rtree : SharedRTree :=
  { leaves := [(0, 1)] }

/-- The datasets every index must hold, without a connectivity checksum. -/
def mandatory_entries : List (String × Block) :=
  [ ("/common/properties", .properties sample_properties),
    ("/common/timestamp", .timestamp "n/a"),
    ("/common/nbn_data", .nbn_data [{ lon := 0, lat := 0 }, { lon := 0, lat := 1 }] [100, 101]),
    ("/common/rtree", .rtree sample_rtree),
    ("/common/ebg_node_data", .ebn_data sample_ebn_data),
    ("/common/turn_penalty", .turn_penalty [0, 5] [0, 7]),
    ("/common/segment_data", .segment_data sample_segment_data),
    ("/common/data_sources_names", .datasources sample_datasources),
    ("/common/maneuver_overrides", .maneuver_overrides sample_overrides sample_node_sequences) ]

/-- An index with every dataset, and both connectivity checksums. -/
def full_index : SharedDataIndex :=
  { entries := mandatory_entries ++
      [ ("/mld/connectivity_checksum", .uint32 77),
        ("/ch/connectivity_checksum", .uint32 99),
        ("/common/turn_data", .turn_data sample_turn_data),
        ("/common/names", .names sample_names),
        ("/common/turn_lanes", .turn_lanes [0, 2, 2, 5] [1, 2, 4, 8, 16] [⟨0, 1⟩]),
        ("/common/intersection_bearings", .intersection_bearings sample_bearings),
        ("/common/entry_classes", .entry_classes [3, 5]) ] }

/-- An index with the mandatory datasets and the checksum of the CH graph only. -/
def bare_index : SharedDataIndex :=
  { entries := mandatory_entries ++ [("/ch/connectivity_checksum", .uint32 99)] }

/-- An index with intersection bearings and entry classes but without turn data. -/
def bearings_index : SharedDataIndex :=
  { entries := mandatory_entries ++
      [ ("/ch/connectivity_checksum", .uint32 99),
        ("/common/intersection_bearings", .intersection_bearings sample_bearings),
        ("/common/entry_classes", .entry_classes [3, 5]) ] }

/-- The facade that the constructor builds over `bare_index` with exclusion index 1. -/
def bare_facade : ContiguousInternalMemoryDataFacadeBase :=
  { exclude_mask := 1
    m_profile_properties := sample_properties
    m_datasources := sample_datasources
    m_check_sum := 99
    m_data_timestamp := "n/a"
    m_coordinate_list := [{ lon := 0, lat := 0 }, { lon := 0, lat := 1 }]
    m_osmnodeid_list := [100, 101]
    m_lane_description_offsets := none
    m_lane_description_masks := none
    m_turn_weight_penalties := [0, 5]
    m_turn_duration_penalties := [0, 7]
    segment_data := sample_segment_data
    edge_based_node_data := sample_ebn_data
    turn_data := none
    m_lane_tuple_id_pairs := none
    m_maneuver_overrides := sample_overrides
    m_maneuver_override_node_sequences := sample_node_sequences
    m_static_rtree := sample_rtree
    intersection_bearings_view := none
    m_name_table := none
    m_entry_class_table := none }

/-- The facade that the constructor builds over `full_index` with exclusion index 1. -/
def full_facade : ContiguousInternalMemoryDataFacadeBase :=
  { bare_facade with
    m_check_sum := 77
    m_lane_description_offsets := some [0, 2, 2, 5]
    m_lane_description_masks := some [1, 2, 4, 8, 16]
    turn_data := some sample_turn_data
    m_lane_tuple_id_pairs := some [⟨0, 1⟩]
    intersection_bearings_view := some sample_bearings
    m_name_table := some sample_names
    m_entry_class_table := some [3, 5] }

/-- The facade that the constructor builds over `bearings_index` with exclusion index 1. -/
def bearings_facade : ContiguousInternalMemoryDataFacadeBase :=
  { bare_facade with
    intersection_bearings_view := some sample_bearings
    m_entry_class_table := some [3, 5] }

/-- A table that is not sorted by `start_node`: the start nodes are 3, 1, 1. -/
def unsorted_overrides : List StorageManeuverOverride :=
  [ { node_sequence_offset_begin := 0, node_sequence_offset_end := 2, start_node := 3,
      instruction_node := 10, override_type := 1, direction := 0 },
    { node_sequence_offset_begin := 2, node_sequence_offset_end := 5, start_node := 1,
      instruction_node := 11, override_type := 2, direction := 1 },
    { node_sequence_offset_begin := 5, node_sequence_offset_end := 6, start_node := 1,
      instruction_node := 12, override_type := 3, direction := 2 } ]

/-- An index like `bare_index` whose maneuver-override table is `unsorted_overrides`. -/
def unsorted_index : SharedDataIndex :=
  { entries := mandatory_entries.dropLast ++
      [ ("/common/maneuver_overrides",
          .maneuver_overrides unsorted_overrides sample_node_sequences),
        ("/ch/connectivity_checksum", .uint32 99) ] }

/-- The facade that the constructor builds over `unsorted_index` with exclusion index 1. -/
def unsorted_facade : ContiguousInternalMemoryDataFacadeBase :=
  { bare_facade with m_maneuver_overrides := unsorted_overrides }

/-- An index with intersection bearings but without entry classes. -/
def bearings_only_index : SharedDataIndex :=
  { entries := mandatory_entries ++
      [ ("/ch/connectivity_checksum", .uint32 99),
        ("/common/turn_data", .turn_data sample_turn_data),
        ("/common/intersection_bearings", .intersection_bearings sample_bearings) ] }

/-! ## Indexes with datasets left out -/

/-- The datasets that `InitializeInternalPointers` resolves without a presence check. -/
def mandatory_datasets : List String :=
  [ "/common/properties", "/common/timestamp", "/common/nbn_data", "/common/rtree",
    "/common/ebg_node_data", "/common/turn_penalty", "/common/segment_data",
    "/common/data_sources_names", "/common/maneuver_overrides" ]

/-- The datasets that `InitializeInternalPointers` resolves only when they are indexed. -/
def optional_datasets : List String :=
  [ "/common/turn_data", "/common/names", "/common/turn_lanes", "/common/intersection_bearings" ]

/-- The index `index` with the datasets named in `names` taken out. -/
def index_without (index : SharedDataIndex) (names : List String) : SharedDataIndex :=
  { entries := index.entries.filter (fun entry => !names.contains entry.1) }

/-! ## The remaining accessors

The accessors below complete the public interface of the attribute facade. The spatial queries
hand their arguments on to the geospatial query object, and `GetClasses` to the helper
`getClassIndexes`; both are declared in other headers and are taken as parameters. -/

/-- The box `util::RectangleInt2D`. -/
structure RectangleInt2D where
  min_lon : Int
  max_lon : Int
  min_lat : Int
  max_lat : Int
deriving DecidableEq, Repr

/-- A leaf of the search tree: the pair of node ids of a road segment. -/
abbrev RTreeLeaf := NodeID × NodeID

/-- The value `engine::Bearing`: a bearing and the range around it. -/
structure Bearing where
  bearing : Int
  range : Int
deriving DecidableEq, Repr

/-- The enumeration `engine::Approach`. -/
inductive Approach where
  | CURB
  | UNRESTRICTED
  | OPPOSITE
deriving DecidableEq, Repr

/-- The value `engine::PhantomNode`: the snapped point and the two edge references. -/
structure PhantomNode where
  location : Coordinate
  forward_segment_id : Nat
  reverse_segment_id : Nat
deriving DecidableEq, Repr

/-- The value `engine::PhantomNodeWithDistance`. -/
structure PhantomNodeWithDistance where
  phantom_node : PhantomNode
  distance : Double
deriving DecidableEq, Repr

/-- The value `engine::PhantomCandidateAlternatives`: two lists of candidates. -/
abbrev PhantomCandidateAlternatives := List PhantomNode × List PhantomNode

/-- The class `GeospatialQuery<SharedRTree, BaseDataFacade>`, represented by the member
functions the facade calls on it, in the order of their arguments there. The facade calls two
overloads of `NearestPhantomNodes`: with five arguments, the third a maximal distance, and with
six arguments, the third a number of results. -/
structure SharedGeospatialQuery where
  Search : RectangleInt2D → List RTreeLeaf
  NearestPhantomNodes_max_distance :
    Coordinate → Approach → Double → Option Bearing → Bool → List PhantomNodeWithDistance
  NearestPhantomNodes_max_results :
    Coordinate → Approach → Nat → Option Double → Option Bearing → Option Bool →
      List PhantomNodeWithDistance
  NearestCandidatesWithAlternativeFromBigComponent :
    Coordinate → Approach → Option Double → Option Bearing → Bool →
      PhantomCandidateAlternatives

/-- The code that the facade calls and that is declared in other headers: the constructor of
the geospatial query, from the search tree, the coordinate list and the facade, and the helper
`extractor::getClassIndexes`. -/
structure Collaborators where
  make_geospatial_query :
    SharedRTree → List Coordinate → ContiguousInternalMemoryDataFacadeBase →
      SharedGeospatialQuery
  getClassIndexes : ClassData → List Nat

/-- The member `m_geospatial_query`. `InitializeInternalPointers` sets it once, to a new
geospatial query over `m_static_rtree`, `m_coordinate_list` and the facade itself, so it is
given by these members. -/
def m_geospatial_query (ext : Collaborators) (f : ContiguousInternalMemoryDataFacadeBase) :
    Option SharedGeospatialQuery :=
  some (ext.make_geospatial_query f.m_static_rtree f.m_coordinate_list f)

/-- The dereference `pointer->` of a `std::unique_ptr`, undefined for a null pointer. -/
def arrow {α : Type} (pointer : Option α) : Except Error α :=
  match pointer with
  | some object => .ok object
  | none => .error .OutOfRange

def GetEdgesInBox (assertions : Bool) (ext : Collaborators)
    (f : ContiguousInternalMemoryDataFacadeBase) (south_west north_east : Coordinate) :
    Except Error (List RTreeLeaf) := do
  BOOST_ASSERT assertions (m_geospatial_query ext f).isSome
  let bbox : RectangleInt2D :=
    { min_lon := south_west.lon, max_lon := north_east.lon,
      min_lat := south_west.lat, max_lat := north_east.lat }
  let query ← arrow (m_geospatial_query ext f)
  pure (query.Search bbox)

def NearestPhantomNodesInRange (assertions : Bool) (ext : Collaborators)
    (f : ContiguousInternalMemoryDataFacadeBase) (input_coordinate : Coordinate)
    (max_distance : Double) (bearing : Option Bearing) (approach : Approach)
    (use_all_edges : Bool) : Except Error (List PhantomNodeWithDistance) := do
  BOOST_ASSERT assertions (m_geospatial_query ext f).isSome
  let query ← arrow (m_geospatial_query ext f)
  pure (query.NearestPhantomNodes_max_distance input_coordinate approach max_distance bearing
    use_all_edges)

def NearestPhantomNodes (assertions : Bool) (ext : Collaborators)
    (f : ContiguousInternalMemoryDataFacadeBase) (input_coordinate : Coordinate)
    (max_results : Nat) (max_distance : Option Double) (bearing : Option Bearing)
    (approach : Approach) : Except Error (List PhantomNodeWithDistance) := do
  BOOST_ASSERT assertions (m_geospatial_query ext f).isSome
  let query ← arrow (m_geospatial_query ext f)
  pure (query.NearestPhantomNodes_max_results input_coordinate approach max_results max_distance bearing
    none)

def NearestCandidatesWithAlternativeFromBigComponent (assertions : Bool) (ext : Collaborators)
    (f : ContiguousInternalMemoryDataFacadeBase) (input_coordinate : Coordinate)
    (max_distance : Option Double) (bearing : Option Bearing) (approach : Approach)
    (use_all_edges : Bool) : Except Error PhantomCandidateAlternatives := do
  BOOST_ASSERT assertions (m_geospatial_query ext f).isSome
  let query ← arrow (m_geospatial_query ext f)
  pure (query.NearestCandidatesWithAlternativeFromBigComponent input_coordinate approach
    max_distance bearing use_all_edges)

def GetClasses (ext : Collaborators) (f : ContiguousInternalMemoryDataFacadeBase)
    (class_data : ClassData) : List String :=
  let indexes := ext.getClassIndexes class_data
  indexes.map (fun index => f.m_profile_properties.GetClassName index)

def GetMapMatchingMaxSpeed (f : ContiguousInternalMemoryDataFacadeBase) : Double :=
  f.m_profile_properties.max_speed_for_map_matching

def GetWeightMultiplier (f : ContiguousInternalMemoryDataFacadeBase) : Double :=
  f.m_profile_properties.GetWeightMultiplier

def GetCoordinateOfNode (f : ContiguousInternalMemoryDataFacadeBase) (node_based_node_id : NodeID) :
    Except Error Coordinate :=
  subscript f.m_coordinate_list node_based_node_id

def GetOSMNodeIDOfNode (f : ContiguousInternalMemoryDataFacadeBase) (node_based_node_id : NodeID) :
    Except Error Nat :=
  subscript f.m_osmnodeid_list node_based_node_id

def GetUncompressedForwardGeometry (f : ContiguousInternalMemoryDataFacadeBase) (id : Nat) :
    List NodeID :=
  f.segment_data.GetForwardGeometry id

def GetUncompressedReverseGeometry (f : ContiguousInternalMemoryDataFacadeBase) (id : Nat) :
    List NodeID :=
  f.segment_data.GetReverseGeometry id

def GetUncompressedForwardDurations (f : ContiguousInternalMemoryDataFacadeBase) (id : Nat) :
    List Nat :=
  f.segment_data.GetForwardDurations id

def GetUncompressedReverseDurations (f : ContiguousInternalMemoryDataFacadeBase) (id : Nat) :
    List Nat :=
  f.segment_data.GetReverseDurations id

def GetUncompressedForwardWeights (f : ContiguousInternalMemoryDataFacadeBase) (id : Nat) :
    List Nat :=
  f.segment_data.GetForwardWeights id

def GetUncompressedReverseWeights (f : ContiguousInternalMemoryDataFacadeBase) (id : Nat) :
    List Nat :=
  f.segment_data.GetReverseWeights id

def GetUncompressedForwardDatasources (f : ContiguousInternalMemoryDataFacadeBase) (id : Nat) :
    List Nat :=
  f.segment_data.GetForwardDatasources id

def GetUncompressedReverseDatasources (f : ContiguousInternalMemoryDataFacadeBase) (id : Nat) :
    List Nat :=
  f.segment_data.GetReverseDatasources id

def GetWeightPenaltyForEdgeID (assertions : Bool) (f : ContiguousInternalMemoryDataFacadeBase)
    (edge_based_edge_id : EdgeID) : Except Error Nat := do
  BOOST_ASSERT assertions (decide (f.m_turn_weight_penalties.length > edge_based_edge_id))
  subscript f.m_turn_weight_penalties edge_based_edge_id

def GetDurationPenaltyForEdgeID (assertions : Bool) (f : ContiguousInternalMemoryDataFacadeBase)
    (edge_based_edge_id : EdgeID) : Except Error Nat := do
  BOOST_ASSERT assertions (decide (f.m_turn_duration_penalties.length > edge_based_edge_id))
  subscript f.m_turn_duration_penalties edge_based_edge_id

def GetTimestamp (f : ContiguousInternalMemoryDataFacadeBase) : String :=
  f.m_data_timestamp

def GetGeometryIndex (f : ContiguousInternalMemoryDataFacadeBase) (edge_based_node_id : NodeID) :
    Nat :=
  f.edge_based_node_data.GetGeometryID edge_based_node_id

def GetComponentID (f : ContiguousInternalMemoryDataFacadeBase) (edge_based_node_id : NodeID) :
    Nat :=
  f.edge_based_node_data.GetComponentID edge_based_node_id

def GetTravelMode (f : ContiguousInternalMemoryDataFacadeBase) (edge_based_node_id : NodeID) :
    Nat :=
  f.edge_based_node_data.GetTravelMode edge_based_node_id

def GetNameIndex (f : ContiguousInternalMemoryDataFacadeBase) (edge_based_node_id : NodeID) :
    NameID :=
  f.edge_based_node_data.GetNameID edge_based_node_id

def GetDatasourceName (f : ContiguousInternalMemoryDataFacadeBase) (id : Nat) : String :=
  f.m_datasources.GetSourceName id

def GetContinueStraightDefault (f : ContiguousInternalMemoryDataFacadeBase) : Bool :=
  f.m_profile_properties.continue_straight_at_waypoint

def GetWeightName (f : ContiguousInternalMemoryDataFacadeBase) : String :=
  f.m_profile_properties.weight_name

def GetWeightPrecision (f : ContiguousInternalMemoryDataFacadeBase) : Nat :=
  f.m_profile_properties.weight_precision

def GetLaneData (assertions : Bool) (f : ContiguousInternalMemoryDataFacadeBase)
    (edge_based_edge_id : EdgeID) : Except Error LaneTupleIdPair := do
  let turn_data ← CHECK_DATASET_DISABLED f.turn_data DATASET_TURN_DATA
  let m_lane_tuple_id_pairs ←
    CHECK_DATASET_DISABLED f.m_lane_tuple_id_pairs DATASET_TURN_LANE_DATA
  let has_lane_data ← HasLaneData f edge_based_edge_id
  BOOST_ASSERT assertions has_lane_data
  subscript m_lane_tuple_id_pairs (turn_data.GetLaneDataID edge_based_edge_id)

def IsLeftHandDriving (f : ContiguousInternalMemoryDataFacadeBase)
    (edge_based_node_id : NodeID) : Bool :=
  f.edge_based_node_data.IsLeftHandDriving edge_based_node_id

def IsSegregated (f : ContiguousInternalMemoryDataFacadeBase) (edge_based_node_id : NodeID) :
    Bool :=
  f.edge_based_node_data.IsSegregated edge_based_node_id

/-- A call of a public member function of the attribute facade, with its arguments: one
constructor for each of the 47 public member functions of the class. -/
inductive Operation where
  | GetCoordinateOfNode (node_based_node_id : NodeID)
  | GetOSMNodeIDOfNode (node_based_node_id : NodeID)
  | GetUncompressedForwardGeometry (id : Nat)
  | GetUncompressedReverseGeometry (id : Nat)
  | GetUncompressedForwardDurations (id : Nat)
  | GetUncompressedReverseDurations (id : Nat)
  | GetUncompressedForwardWeights (id : Nat)
  | GetUncompressedReverseWeights (id : Nat)
  | GetUncompressedForwardDatasources (id : Nat)
  | GetUncompressedReverseDatasources (id : Nat)
  | GetWeightPenaltyForEdgeID (edge_based_edge_id : EdgeID)
  | GetDurationPenaltyForEdgeID (edge_based_edge_id : EdgeID)
  | GetTurnInstructionForEdgeID (edge_based_edge_id : EdgeID)
  | GetCheckSum
  | GetTimestamp
  | GetGeometryIndex (edge_based_node_id : NodeID)
  | GetComponentID (edge_based_node_id : NodeID)
  | GetTravelMode (edge_based_node_id : NodeID)
  | GetClassData (edge_based_node_id : NodeID)
  | ExcludeNode (edge_based_node_id : NodeID)
  | GetNameIndex (edge_based_node_id : NodeID)
  | GetNameForID (id : NameID)
  | GetRefForID (id : NameID)
  | GetPronunciationForID (id : NameID)
  | GetDestinationsForID (id : NameID)
  | GetExitsForID (id : NameID)
  | GetDatasourceName (id : Nat)
  | GetContinueStraightDefault
  | GetWeightName
  | GetWeightPrecision
  | GetBearingClass (node_based_node_id : NodeID)
  | PreTurnBearing (edge_based_edge_id : EdgeID)
  | PostTurnBearing (edge_based_edge_id : EdgeID)
  | GetEntryClass (edge_based_edge_id : EdgeID)
  | HasLaneData (edge_based_edge_id : EdgeID)
  | GetLaneData (edge_based_edge_id : EdgeID)
  | GetTurnDescription (lane_description_id : LaneDescriptionID)
  | IsLeftHandDriving (edge_based_node_id : NodeID)
  | IsSegregated (edge_based_node_id : NodeID)
  | GetOverridesThatStartAt (edge_based_node_id : NodeID)
  | GetEdgesInBox (south_west north_east : Coordinate)
  | NearestPhantomNodesInRange (input_coordinate : Coordinate) (max_distance : Double)
      (bearing : Option Bearing) (approach : Approach) (use_all_edges : Bool)
  | NearestPhantomNodes (input_coordinate : Coordinate) (max_results : Nat)
      (max_distance : Option Double) (bearing : Option Bearing) (approach : Approach)
  | NearestCandidatesWithAlternativeFromBigComponent (input_coordinate : Coordinate)
      (max_distance : Option Double) (bearing : Option Bearing) (approach : Approach)
      (use_all_edges : Bool)
  | GetClasses (class_data : ClassData)
  | GetMapMatchingMaxSpeed
  | GetWeightMultiplier

/-- What a call hands back to the caller. -/
inductive Answer where
  | coordinate (c : Coordinate)
  | number (n : Nat)
  | flag (b : Bool)
  | text (s : String)
  | numbers (l : List Nat)
  | instruction (t : TurnInstruction)
  | lane_tuple (p : LaneTupleIdPair)
  | overrides (l : List ManeuverOverride)
  | real (d : Double)
  | texts (l : List String)
  | leaves (l : List RTreeLeaf)
  | phantom_nodes (l : List PhantomNodeWithDistance)
  | alternatives (p : PhantomCandidateAlternatives)
deriving DecidableEq, Repr

/-- The value or exception of the call `op` on the facade `f`. -/
def call (assertions : Bool) (INVALID_LANE_DESCRIPTIONID : LaneDescriptionID)
    (ext : Collaborators) (f : ContiguousInternalMemoryDataFacadeBase) :
    Operation → Except Error Answer
  | .GetCoordinateOfNode n => (GetCoordinateOfNode f n).map .coordinate
  | .GetOSMNodeIDOfNode n => (GetOSMNodeIDOfNode f n).map .number
  | .GetUncompressedForwardGeometry id => .ok (.numbers (GetUncompressedForwardGeometry f id))
  | .GetUncompressedReverseGeometry id => .ok (.numbers (GetUncompressedReverseGeometry f id))
  | .GetUncompressedForwardDurations id => .ok (.numbers (GetUncompressedForwardDurations f id))
  | .GetUncompressedReverseDurations id => .ok (.numbers (GetUncompressedReverseDurations f id))
  | .GetUncompressedForwardWeights id => .ok (.numbers (GetUncompressedForwardWeights f id))
  | .GetUncompressedReverseWeights id => .ok (.numbers (GetUncompressedReverseWeights f id))
  | .GetUncompressedForwardDatasources id =>
    .ok (.numbers (GetUncompressedForwardDatasources f id))
  | .GetUncompressedReverseDatasources id =>
    .ok (.numbers (GetUncompressedReverseDatasources f id))
  | .GetWeightPenaltyForEdgeID e => (GetWeightPenaltyForEdgeID assertions f e).map .number
  | .GetDurationPenaltyForEdgeID e => (GetDurationPenaltyForEdgeID assertions f e).map .number
  | .GetTurnInstructionForEdgeID e => (GetTurnInstructionForEdgeID f e).map .instruction
  | .GetCheckSum => .ok (.number (GetCheckSum f))
  | .GetTimestamp => .ok (.text (GetTimestamp f))
  | .GetGeometryIndex n => .ok (.number (GetGeometryIndex f n))
  | .GetComponentID n => .ok (.number (GetComponentID f n))
  | .GetTravelMode n => .ok (.number (GetTravelMode f n))
  | .GetClassData n => .ok (.number (GetClassData f n))
  | .ExcludeNode n => .ok (.flag (ExcludeNode f n))
  | .GetNameIndex n => .ok (.number (GetNameIndex f n))
  | .GetNameForID id => (GetNameForID f id).map .text
  | .GetRefForID id => (GetRefForID f id).map .text
  | .GetPronunciationForID id => (GetPronunciationForID f id).map .text
  | .GetDestinationsForID id => (GetDestinationsForID f id).map .text
  | .GetExitsForID id => (GetExitsForID f id).map .text
  | .GetDatasourceName id => .ok (.text (GetDatasourceName f id))
  | .GetContinueStraightDefault => .ok (.flag (GetContinueStraightDefault f))
  | .GetWeightName => .ok (.text (GetWeightName f))
  | .GetWeightPrecision => .ok (.number (GetWeightPrecision f))
  | .GetBearingClass n => (GetBearingClass f n).map .numbers
  | .PreTurnBearing e => (PreTurnBearing f e).map .number
  | .PostTurnBearing e => (PostTurnBearing f e).map .number
  | .GetEntryClass e => (GetEntryClass f e).map .number
  | .HasLaneData e => (HasLaneData f e).map .flag
  | .GetLaneData e => (GetLaneData assertions f e).map .lane_tuple
  | .GetTurnDescription id => (GetTurnDescription INVALID_LANE_DESCRIPTIONID f id).map .numbers
  | .IsLeftHandDriving n => .ok (.flag (IsLeftHandDriving f n))
  | .IsSegregated n => .ok (.flag (IsSegregated f n))
  | .GetOverridesThatStartAt n => (GetOverridesThatStartAt f n).map .overrides
  | .GetEdgesInBox south_west north_east =>
    (GetEdgesInBox assertions ext f south_west north_east).map .leaves
  | .NearestPhantomNodesInRange input max_distance bearing approach use_all_edges =>
    (NearestPhantomNodesInRange assertions ext f input max_distance bearing approach
      use_all_edges).map .phantom_nodes
  | .NearestPhantomNodes input max_results max_distance bearing approach =>
    (NearestPhantomNodes assertions ext f input max_results max_distance bearing
      approach).map .phantom_nodes
  | .NearestCandidatesWithAlternativeFromBigComponent input max_distance bearing approach
      use_all_edges =>
    (NearestCandidatesWithAlternativeFromBigComponent assertions ext f input max_distance
      bearing approach use_all_edges).map .alternatives
  | .GetClasses class_data => .ok (.texts (GetClasses ext f class_data))
  | .GetMapMatchingMaxSpeed => .ok (.real (GetMapMatchingMaxSpeed f))
  | .GetWeightMultiplier => .ok (.real (GetWeightMultiplier f))

/-! ## The member functions as programs on the object

The accessors above are functions of the facade. To follow what a call does to the object
itself, each member function is given once more as a program that starts from the object
`*this` and ends with an answer or an exception and with the object after the call. A program
is built from reads of data members (`read_member`), calls of other member functions, and
computations on the values read (`evaluate`), in the order of the statements of the source. -/

/-- A program on the facade object: from the object before the call to the answer or exception
and the object after the call. -/
def Member (α : Type) : Type :=
  ContiguousInternalMemoryDataFacadeBase →
    Except Error α × ContiguousInternalMemoryDataFacadeBase

/-- The program that returns `a`. -/
def member_pure {α : Type} (a : α) : Member α :=
  fun self => (.ok a, self)

/-- The program `x` followed by `k` on its answer, on the object `x` leaves; an exception of `x`
ends the program. -/
def member_bind {α β : Type} (x : Member α) (k : α → Member β) : Member β :=
  fun self =>
    match x self with
    | (.ok a, after) => k a after
    | (.error e, after) => (.error e, after)

instance : Monad Member where
  pure := member_pure
  bind := member_bind

/-- The read of a data member of the object. -/
def read_member {α : Type} (member : ContiguousInternalMemoryDataFacadeBase → α) : Member α :=
  fun self => (.ok (member self), self)

/-- The assignment of a data member of the object, put as the change it makes to the object. No
public member function has one; the constructor does. -/
def assign_member
    (change : ContiguousInternalMemoryDataFacadeBase → ContiguousInternalMemoryDataFacadeBase) :
    Member Unit :=
  fun self => (.ok (), change self)

/-- A computation on values already read, which may throw. -/
def evaluate {α : Type} (x : Except Error α) : Member α :=
  fun self => (x, self)

/-- The program leaves the object as it found it, whatever the object and whether it returns or
throws. -/
def read_only {α : Type} (program : Member α) : Prop :=
  ∀ self, (program self).2 = self

/-- The program gives, on every object, the answer or exception that the function `accessor`
of the object gives, and leaves the object as it found it. -/
def answers {α : Type} (program : Member α)
    (accessor : ContiguousInternalMemoryDataFacadeBase → Except Error α) : Prop :=
  ∀ self, program self = (accessor self, self)

def GetCoordinateOfNode_body (node_based_node_id : NodeID) : Member Coordinate := do
  let m_coordinate_list ← read_member (fun self => self.m_coordinate_list)
  evaluate (subscript m_coordinate_list node_based_node_id)

def GetOSMNodeIDOfNode_body (node_based_node_id : NodeID) : Member Nat := do
  let m_osmnodeid_list ← read_member (fun self => self.m_osmnodeid_list)
  evaluate (subscript m_osmnodeid_list node_based_node_id)

def GetUncompressedForwardGeometry_body (id : Nat) : Member (List NodeID) := do
  let segment_data ← read_member (fun self => self.segment_data)
  pure (segment_data.GetForwardGeometry id)

def GetUncompressedReverseGeometry_body (id : Nat) : Member (List NodeID) := do
  let segment_data ← read_member (fun self => self.segment_data)
  pure (segment_data.GetReverseGeometry id)

def GetUncompressedForwardDurations_body (id : Nat) : Member (List Nat) := do
  let segment_data ← read_member (fun self => self.segment_data)
  pure (segment_data.GetForwardDurations id)

def GetUncompressedReverseDurations_body (id : Nat) : Member (List Nat) := do
  let segment_data ← read_member (fun self => self.segment_data)
  pure (segment_data.GetReverseDurations id)

def GetUncompressedForwardWeights_body (id : Nat) : Member (List Nat) := do
  let segment_data ← read_member (fun self => self.segment_data)
  pure (segment_data.GetForwardWeights id)

def GetUncompressedReverseWeights_body (id : Nat) : Member (List Nat) := do
  let segment_data ← read_member (fun self => self.segment_data)
  pure (segment_data.GetReverseWeights id)

def GetUncompressedForwardDatasources_body (id : Nat) : Member (List Nat) := do
  let segment_data ← read_member (fun self => self.segment_data)
  pure (segment_data.GetForwardDatasources id)

def GetUncompressedReverseDatasources_body (id : Nat) : Member (List Nat) := do
  let segment_data ← read_member (fun self => self.segment_data)
  pure (segment_data.GetReverseDatasources id)

def GetWeightPenaltyForEdgeID_body (assertions : Bool) (edge_based_edge_id : EdgeID) :
    Member Nat := do
  let m_turn_weight_penalties ← read_member (fun self => self.m_turn_weight_penalties)
  evaluate (BOOST_ASSERT assertions (decide (m_turn_weight_penalties.length > edge_based_edge_id)))
  evaluate (subscript m_turn_weight_penalties edge_based_edge_id)

def GetDurationPenaltyForEdgeID_body (assertions : Bool) (edge_based_edge_id : EdgeID) :
    Member Nat := do
  let m_turn_duration_penalties ← read_member (fun self => self.m_turn_duration_penalties)
  evaluate
    (BOOST_ASSERT assertions (decide (m_turn_duration_penalties.length > edge_based_edge_id)))
  evaluate (subscript m_turn_duration_penalties edge_based_edge_id)

def GetTurnInstructionForEdgeID_body (edge_based_edge_id : EdgeID) : Member TurnInstruction := do
  let turn_data ← read_member (fun self => self.turn_data)
  let view ← evaluate (CHECK_DATASET_DISABLED turn_data DATASET_TURN_DATA)
  pure (view.GetTurnInstruction edge_based_edge_id)

def GetCheckSum_body : Member Nat :=
  read_member (fun self => self.m_check_sum)

def GetTimestamp_body : Member String :=
  read_member (fun self => self.m_data_timestamp)

def GetGeometryIndex_body (edge_based_node_id : NodeID) : Member Nat := do
  let edge_based_node_data ← read_member (fun self => self.edge_based_node_data)
  pure (edge_based_node_data.GetGeometryID edge_based_node_id)

def GetComponentID_body (edge_based_node_id : NodeID) : Member Nat := do
  let edge_based_node_data ← read_member (fun self => self.edge_based_node_data)
  pure (edge_based_node_data.GetComponentID edge_based_node_id)

def GetTravelMode_body (edge_based_node_id : NodeID) : Member Nat := do
  let edge_based_node_data ← read_member (fun self => self.edge_based_node_data)
  pure (edge_based_node_data.GetTravelMode edge_based_node_id)

def GetClassData_body (edge_based_node_id : NodeID) : Member ClassData := do
  let edge_based_node_data ← read_member (fun self => self.edge_based_node_data)
  pure (edge_based_node_data.GetClassData edge_based_node_id)

def ExcludeNode_body (edge_based_node_id : NodeID) : Member Bool := do
  let edge_based_node_data ← read_member (fun self => self.edge_based_node_data)
  let exclude_mask ← read_member (fun self => self.exclude_mask)
  pure (decide ((edge_based_node_data.GetClassData edge_based_node_id &&& exclude_mask) > 0))

def GetNameIndex_body (edge_based_node_id : NodeID) : Member NameID := do
  let edge_based_node_data ← read_member (fun self => self.edge_based_node_data)
  pure (edge_based_node_data.GetNameID edge_based_node_id)

def GetNameForID_body (id : NameID) : Member String := do
  let m_name_table ← read_member (fun self => self.m_name_table)
  let view ← evaluate (CHECK_DATASET_DISABLED m_name_table DATASET_NAME_DATA)
  pure (view.GetNameForID id)

def GetRefForID_body (id : NameID) : Member String := do
  let m_name_table ← read_member (fun self => self.m_name_table)
  let view ← evaluate (CHECK_DATASET_DISABLED m_name_table DATASET_NAME_DATA)
  pure (view.GetRefForID id)

def GetPronunciationForID_body (id : NameID) : Member String := do
  let m_name_table ← read_member (fun self => self.m_name_table)
  let view ← evaluate (CHECK_DATASET_DISABLED m_name_table DATASET_NAME_DATA)
  pure (view.GetPronunciationForID id)

def GetDestinationsForID_body (id : NameID) : Member String := do
  let m_name_table ← read_member (fun self => self.m_name_table)
  let view ← evaluate (CHECK_DATASET_DISABLED m_name_table DATASET_NAME_DATA)
  pure (view.GetDestinationsForID id)

def GetExitsForID_body (id : NameID) : Member String := do
  let m_name_table ← read_member (fun self => self.m_name_table)
  let view ← evaluate (CHECK_DATASET_DISABLED m_name_table DATASET_NAME_DATA)
  pure (view.GetExitsForID id)

def GetDatasourceName_body (id : Nat) : Member String := do
  let m_datasources ← read_member (fun self => self.m_datasources)
  pure (m_datasources.GetSourceName id)

def GetContinueStraightDefault_body : Member Bool := do
  let m_profile_properties ← read_member (fun self => self.m_profile_properties)
  pure m_profile_properties.continue_straight_at_waypoint

def GetMapMatchingMaxSpeed_body : Member Double := do
  let m_profile_properties ← read_member (fun self => self.m_profile_properties)
  pure m_profile_properties.max_speed_for_map_matching

def GetWeightName_body : Member String := do
  let m_profile_properties ← read_member (fun self => self.m_profile_properties)
  pure m_profile_properties.weight_name

def GetWeightPrecision_body : Member Nat := do
  let m_profile_properties ← read_member (fun self => self.m_profile_properties)
  pure m_profile_properties.weight_precision

def GetWeightMultiplier_body : Member Double := do
  let m_profile_properties ← read_member (fun self => self.m_profile_properties)
  pure m_profile_properties.GetWeightMultiplier

def GetClasses_body (ext : Collaborators) (class_data : ClassData) : Member (List String) := do
  let indexes := ext.getClassIndexes class_data
  let m_profile_properties ← read_member (fun self => self.m_profile_properties)
  pure (indexes.map (fun index => m_profile_properties.GetClassName index))

def GetBearingClass_body (node_based_node_id : NodeID) : Member BearingClass := do
  let intersection_bearings_view ← read_member (fun self => self.intersection_bearings_view)
  let view ← evaluate
    (CHECK_DATASET_DISABLED intersection_bearings_view DATASET_INTERSECTION_BEARINGS)
  pure (view.GetBearingClass node_based_node_id)

def PreTurnBearing_body (edge_based_edge_id : EdgeID) : Member TurnBearing := do
  let turn_data ← read_member (fun self => self.turn_data)
  let view ← evaluate (CHECK_DATASET_DISABLED turn_data DATASET_TURN_DATA)
  pure (view.GetPreTurnBearing edge_based_edge_id)

def PostTurnBearing_body (edge_based_edge_id : EdgeID) : Member TurnBearing := do
  let turn_data ← read_member (fun self => self.turn_data)
  let view ← evaluate (CHECK_DATASET_DISABLED turn_data DATASET_TURN_DATA)
  pure (view.GetPostTurnBearing edge_based_edge_id)

def GetEntryClass_body (edge_based_edge_id : EdgeID) : Member EntryClass := do
  let m_entry_class_table ← read_member (fun self => self.m_entry_class_table)
  let table ← evaluate (CHECK_DATASET_DISABLED m_entry_class_table DATASET_ENTRY_CLASS)
  let turn_data ← read_member (fun self => self.turn_data)
  let view ← evaluate (CHECK_DATASET_DISABLED turn_data DATASET_TURN_DATA)
  let entry_class_id := view.GetEntryClassID edge_based_edge_id
  evaluate (subscript table entry_class_id)

def HasLaneData_body (edge_based_edge_id : EdgeID) : Member Bool := do
  let turn_data ← read_member (fun self => self.turn_data)
  let view ← evaluate (CHECK_DATASET_DISABLED turn_data DATASET_TURN_DATA)
  pure (view.HasLaneData edge_based_edge_id)

def GetLaneData_body (assertions : Bool) (edge_based_edge_id : EdgeID) :
    Member LaneTupleIdPair := do
  let turn_data ← read_member (fun self => self.turn_data)
  let view ← evaluate (CHECK_DATASET_DISABLED turn_data DATASET_TURN_DATA)
  let m_lane_tuple_id_pairs ← read_member (fun self => self.m_lane_tuple_id_pairs)
  let pairs ← evaluate (CHECK_DATASET_DISABLED m_lane_tuple_id_pairs DATASET_TURN_LANE_DATA)
  let has_lane_data ← HasLaneData_body edge_based_edge_id
  evaluate (BOOST_ASSERT assertions has_lane_data)
  evaluate (subscript pairs (view.GetLaneDataID edge_based_edge_id))

def GetTurnDescription_body (INVALID_LANE_DESCRIPTIONID : LaneDescriptionID)
    (lane_description_id : LaneDescriptionID) : Member TurnLaneDescription := do
  let m_lane_description_offsets ← read_member (fun self => self.m_lane_description_offsets)
  let offsets ← evaluate
    (CHECK_DATASET_DISABLED m_lane_description_offsets DATASET_TURN_LANE_DATA)
  let m_lane_description_masks ← read_member (fun self => self.m_lane_description_masks)
  let masks ← evaluate (CHECK_DATASET_DISABLED m_lane_description_masks DATASET_TURN_LANE_DATA)
  if lane_description_id = INVALID_LANE_DESCRIPTIONID then
    pure []
  else do
    let first ← evaluate (subscript offsets lane_description_id)
    let last ← evaluate (subscript offsets (lane_description_id + 1))
    evaluate (vector_from_range masks first last)

def IsLeftHandDriving_body (edge_based_node_id : NodeID) : Member Bool := do
  let edge_based_node_data ← read_member (fun self => self.edge_based_node_data)
  pure (edge_based_node_data.IsLeftHandDriving edge_based_node_id)

def IsSegregated_body (edge_based_node_id : NodeID) : Member Bool := do
  let edge_based_node_data ← read_member (fun self => self.edge_based_node_data)
  pure (edge_based_node_data.IsSegregated edge_based_node_id)

def GetOverridesThatStartAt_body (edge_based_node_id : NodeID) :
    Member (List ManeuverOverride) := do
  let m_maneuver_overrides ← read_member (fun self => self.m_maneuver_overrides)
  let found_range :=
    equal_range Comp.elem_key Comp.key_elem m_maneuver_overrides edge_based_node_id
  let m_maneuver_override_node_sequences ←
    read_member (fun self => self.m_maneuver_override_node_sequences)
  evaluate (for_each m_maneuver_overrides found_range.1 found_range.2
    (push_override m_maneuver_override_node_sequences) [])

def GetEdgesInBox_body (assertions : Bool) (ext : Collaborators)
    (south_west north_east : Coordinate) : Member (List RTreeLeaf) := do
  let pointer ← read_member (m_geospatial_query ext)
  evaluate (BOOST_ASSERT assertions pointer.isSome)
  let bbox : RectangleInt2D :=
    { min_lon := south_west.lon, max_lon := north_east.lon,
      min_lat := south_west.lat, max_lat := north_east.lat }
  let query ← evaluate (arrow pointer)
  pure (query.Search bbox)

def NearestPhantomNodesInRange_body (assertions : Bool) (ext : Collaborators)
    (input_coordinate : Coordinate) (max_distance : Double) (bearing : Option Bearing)
    (approach : Approach) (use_all_edges : Bool) : Member (List PhantomNodeWithDistance) := do
  let pointer ← read_member (m_geospatial_query ext)
  evaluate (BOOST_ASSERT assertions pointer.isSome)
  let query ← evaluate (arrow pointer)
  pure (query.NearestPhantomNodes_max_distance input_coordinate approach max_distance bearing
    use_all_edges)

def NearestPhantomNodes_body (assertions : Bool) (ext : Collaborators)
    (input_coordinate : Coordinate) (max_results : Nat) (max_distance : Option Double)
    (bearing : Option Bearing) (approach : Approach) :
    Member (List PhantomNodeWithDistance) := do
  let pointer ← read_member (m_geospatial_query ext)
  evaluate (BOOST_ASSERT assertions pointer.isSome)
  let query ← evaluate (arrow pointer)
  pure (query.NearestPhantomNodes_max_results input_coordinate approach max_results max_distance bearing
    none)

def NearestCandidatesWithAlternativeFromBigComponent_body (assertions : Bool)
    (ext : Collaborators) (input_coordinate : Coordinate) (max_distance : Option Double)
    (bearing : Option Bearing) (approach : Approach) (use_all_edges : Bool) :
    Member PhantomCandidateAlternatives := do
  let pointer ← read_member (m_geospatial_query ext)
  evaluate (BOOST_ASSERT assertions pointer.isSome)
  let query ← evaluate (arrow pointer)
  pure (query.NearestCandidatesWithAlternativeFromBigComponent input_coordinate approach
    max_distance bearing use_all_edges)

/-- The program of the call `op`. -/
def member (assertions : Bool) (INVALID_LANE_DESCRIPTIONID : LaneDescriptionID)
    (ext : Collaborators) : Operation → Member Answer
  | .GetCoordinateOfNode n => do pure (.coordinate (← GetCoordinateOfNode_body n))
  | .GetOSMNodeIDOfNode n => do pure (.number (← GetOSMNodeIDOfNode_body n))
  | .GetUncompressedForwardGeometry id => do
    pure (.numbers (← GetUncompressedForwardGeometry_body id))
  | .GetUncompressedReverseGeometry id => do
    pure (.numbers (← GetUncompressedReverseGeometry_body id))
  | .GetUncompressedForwardDurations id => do
    pure (.numbers (← GetUncompressedForwardDurations_body id))
  | .GetUncompressedReverseDurations id => do
    pure (.numbers (← GetUncompressedReverseDurations_body id))
  | .GetUncompressedForwardWeights id => do
    pure (.numbers (← GetUncompressedForwardWeights_body id))
  | .GetUncompressedReverseWeights id => do
    pure (.numbers (← GetUncompressedReverseWeights_body id))
  | .GetUncompressedForwardDatasources id => do
    pure (.numbers (← GetUncompressedForwardDatasources_body id))
  | .GetUncompressedReverseDatasources id => do
    pure (.numbers (← GetUncompressedReverseDatasources_body id))
  | .GetWeightPenaltyForEdgeID e => do
    pure (.number (← GetWeightPenaltyForEdgeID_body assertions e))
  | .GetDurationPenaltyForEdgeID e => do
    pure (.number (← GetDurationPenaltyForEdgeID_body assertions e))
  | .GetTurnInstructionForEdgeID e => do
    pure (.instruction (← GetTurnInstructionForEdgeID_body e))
  | .GetCheckSum => do pure (.number (← GetCheckSum_body))
  | .GetTimestamp => do pure (.text (← GetTimestamp_body))
  | .GetGeometryIndex n => do pure (.number (← GetGeometryIndex_body n))
  | .GetComponentID n => do pure (.number (← GetComponentID_body n))
  | .GetTravelMode n => do pure (.number (← GetTravelMode_body n))
  | .GetClassData n => do pure (.number (← GetClassData_body n))
  | .ExcludeNode n => do pure (.flag (← ExcludeNode_body n))
  | .GetNameIndex n => do pure (.number (← GetNameIndex_body n))
  | .GetNameForID id => do pure (.text (← GetNameForID_body id))
  | .GetRefForID id => do pure (.text (← GetRefForID_body id))
  | .GetPronunciationForID id => do pure (.text (← GetPronunciationForID_body id))
  | .GetDestinationsForID id => do pure (.text (← GetDestinationsForID_body id))
  | .GetExitsForID id => do pure (.text (← GetExitsForID_body id))
  | .GetDatasourceName id => do pure (.text (← GetDatasourceName_body id))
  | .GetContinueStraightDefault => do pure (.flag (← GetContinueStraightDefault_body))
  | .GetWeightName => do pure (.text (← GetWeightName_body))
  | .GetWeightPrecision => do pure (.number (← GetWeightPrecision_body))
  | .GetBearingClass n => do pure (.numbers (← GetBearingClass_body n))
  | .PreTurnBearing e => do pure (.number (← PreTurnBearing_body e))
  | .PostTurnBearing e => do pure (.number (← PostTurnBearing_body e))
  | .GetEntryClass e => do pure (.number (← GetEntryClass_body e))
  | .HasLaneData e => do pure (.flag (← HasLaneData_body e))
  | .GetLaneData e => do pure (.lane_tuple (← GetLaneData_body assertions e))
  | .GetTurnDescription id => do
    pure (.numbers (← GetTurnDescription_body INVALID_LANE_DESCRIPTIONID id))
  | .IsLeftHandDriving n => do pure (.flag (← IsLeftHandDriving_body n))
  | .IsSegregated n => do pure (.flag (← IsSegregated_body n))
  | .GetOverridesThatStartAt n => do pure (.overrides (← GetOverridesThatStartAt_body n))
  | .GetEdgesInBox south_west north_east => do
    pure (.leaves (← GetEdgesInBox_body assertions ext south_west north_east))
  | .NearestPhantomNodesInRange input max_distance bearing approach use_all_edges => do
    pure (.phantom_nodes (← NearestPhantomNodesInRange_body assertions ext input max_distance
      bearing approach use_all_edges))
  | .NearestPhantomNodes input max_results max_distance bearing approach => do
    pure (.phantom_nodes (← NearestPhantomNodes_body assertions ext input max_results
      max_distance bearing approach))
  | .NearestCandidatesWithAlternativeFromBigComponent input max_distance bearing approach
      use_all_edges => do
    pure (.alternatives (← NearestCandidatesWithAlternativeFromBigComponent_body assertions
      ext input max_distance bearing approach use_all_edges))
  | .GetClasses class_data => do pure (.texts (← GetClasses_body ext class_data))
  | .GetMapMatchingMaxSpeed => do pure (.real (← GetMapMatchingMaxSpeed_body))
  | .GetWeightMultiplier => do pure (.real (← GetWeightMultiplier_body))

/-- One call on the facade object: the object after the call and the answer or exception of
the call, as the program of the call computes them from the object before the call. -/
def step (assertions : Bool) (INVALID_LANE_DESCRIPTIONID : LaneDescriptionID)
    (ext : Collaborators) (f : ContiguousInternalMemoryDataFacadeBase) (op : Operation) :
    ContiguousInternalMemoryDataFacadeBase × Except Error Answer :=
  let outcome := member assertions INVALID_LANE_DESCRIPTIONID ext op f
  (outcome.2, outcome.1)

/-- A sequence of calls on the facade object, each on the object the previous one left; an
exception of a call is caught by the caller and the next call follows. -/
def run (assertions : Bool) (INVALID_LANE_DESCRIPTIONID : LaneDescriptionID)
    (ext : Collaborators) :
    ContiguousInternalMemoryDataFacadeBase → List Operation →
      ContiguousInternalMemoryDataFacadeBase × List (Except Error Answer)
  | f, [] => (f, [])
  | f, op :: ops =>
    let after := step assertions INVALID_LANE_DESCRIPTIONID ext f op
    let rest := run assertions INVALID_LANE_DESCRIPTIONID ext after.1 ops
    (rest.1, after.2 :: rest.2)

/-- A sample of the collaborators: a geospatial query that finds every leaf of the tree and no
phantom node, and class indexes 0 and 1 for the two lowest bits. -/
def sample_collaborators : Collaborators :=
  { make_geospatial_query := fun rtree _ _ =>
      { Search := fun _ => rtree.leaves
        NearestPhantomNodes_max_distance := fun _ _ _ _ _ => []
        NearestPhantomNodes_max_results := fun _ _ _ _ _ _ => []
        NearestCandidatesWithAlternativeFromBigComponent := fun _ _ _ _ _ => ([], []) }
    getClassIndexes := fun class_data =>
      (if class_data % 2 = 1 then [0] else []) ++ (if class_data / 2 % 2 = 1 then [1] else []) }

/-! ## The graph views of the two algorithms

The classes `ContiguousInternalMemoryAlgorithmDataFacade<CH>` and
`ContiguousInternalMemoryAlgorithmDataFacade<MLD>` hand every graph query on to their query
graph, whose classes are declared in other headers. -/

/-- Modelled from the spec: an edge record of the flat edge array of the Graph View, which
carries a target node id and an edge-data payload. -/
structure GraphEdge where
  target : NodeID
  data : Nat
deriving DecidableEq, Repr

/-- Modelled from the spec: the Graph View (`util::FilteredGraphView<contractor::QueryGraphView>`
and `customizer::MultiLevelEdgeBasedGraphView`, declared outside the files at hand). Nodes are
dense ids `[0, N)`, edges are dense ids `[0, M)`; each node has an out-edge range
`[first, last)` into a flat edge array; each edge carries a target node id and an edge-data
payload. -/
structure GraphView where
  node_array : List (Nat × Nat)
  edge_array : List GraphEdge

/-- Modelled from the spec: `GetAdjacentEdgeRange` of the Graph View, the out-edge range of a
node, topology un-altered. -/
def GraphView.GetAdjacentEdgeRange (g : GraphView) (node : NodeID) : Except Error (Nat × Nat) :=
  subscript g.node_array node

/-- Modelled from the spec: `GetTarget` of the Graph View, the target node id the edge carries,
topology un-altered. -/
def GraphView.GetTarget (g : GraphView) (edge : EdgeID) : Except Error NodeID :=
  (subscript g.edge_array edge).map GraphEdge.target

/-- Modelled from the spec: `FindEdge` of the Graph View, a linear scan over the out-edge range
of `node_from` for an edge whose target is `node_to`, returning the sentinel "no edge" id
`SPECIAL_EDGEID` on failure. -/
def GraphView.FindEdge (SPECIAL_EDGEID : EdgeID) (g : GraphView) (node_from node_to : NodeID) :
    EdgeID :=
  match g.node_array[node_from]? with
  | none => SPECIAL_EDGEID
  | some (first, last) =>
    match (List.range' first (last - first)).find?
        (fun edge =>
          match g.GetTarget edge with
          | .ok target => target == node_to
          | .error _ => false) with
    | some edge => edge
    | none => SPECIAL_EDGEID

/-- The class `ContiguousInternalMemoryAlgorithmDataFacade<CH>`, with its query graph. -/
structure AlgorithmDataFacadeCH where
  m_query_graph : GraphView

def AlgorithmDataFacadeCH.GetTarget (f : AlgorithmDataFacadeCH) (edge_based_edge_id : EdgeID) :
    Except Error NodeID :=
  f.m_query_graph.GetTarget edge_based_edge_id

def AlgorithmDataFacadeCH.GetAdjacentEdgeRange (f : AlgorithmDataFacadeCH)
    (edge_based_node_id : NodeID) : Except Error (Nat × Nat) :=
  f.m_query_graph.GetAdjacentEdgeRange edge_based_node_id

def AlgorithmDataFacadeCH.FindEdge (SPECIAL_EDGEID : EdgeID) (f : AlgorithmDataFacadeCH)
    (edge_based_node_from edge_based_node_to : NodeID) : EdgeID :=
  f.m_query_graph.FindEdge SPECIAL_EDGEID edge_based_node_from edge_based_node_to

/-- The class `ContiguousInternalMemoryAlgorithmDataFacade<MLD>`, with its query graph (the
partition, the cell storage and the cell metric are not read by the graph queries). -/
structure AlgorithmDataFacadeMLD where
  query_graph : GraphView

def AlgorithmDataFacadeMLD.GetTarget (f : AlgorithmDataFacadeMLD) (edge_based_edge_id : EdgeID) :
    Except Error NodeID :=
  f.query_graph.GetTarget edge_based_edge_id

def AlgorithmDataFacadeMLD.GetAdjacentEdgeRange (f : AlgorithmDataFacadeMLD)
    (edge_based_node_id : NodeID) : Except Error (Nat × Nat) :=
  f.query_graph.GetAdjacentEdgeRange edge_based_node_id

def AlgorithmDataFacadeMLD.FindEdge (SPECIAL_EDGEID : EdgeID) (f : AlgorithmDataFacadeMLD)
    (edge_based_node_from edge_based_node_to : NodeID) : EdgeID :=
  f.query_graph.FindEdge SPECIAL_EDGEID edge_based_node_from edge_based_node_to

/-- A graph with three nodes and the edges 0 → 1, 0 → 2, 0 → 1, 2 → 0. -/
def sample_graph : GraphView :=
  { node_array := [(0, 3), (3, 3), (3, 4)]
    edge_array := [⟨1, 7⟩, ⟨2, 8⟩, ⟨1, 9⟩, ⟨0, 5⟩] }

end Datafacade

/-!
# The format option of the updater

A shallow embedding of the stream operators of `SpeedAndTurnPenaltyFormat` in
`include/updater/updater_config.hpp`. A stream is the list of characters still to be read (or
written so far); the reference parameter `format` is passed in and handed back.
-/

namespace Updater

/-- The enumeration `SpeedAndTurnPenaltyFormat`. -/
inductive SpeedAndTurnPenaltyFormat where
  | CSV
  | PARQUET
deriving DecidableEq, Repr

/-- The exception `boost::program_options::validation_error`, with the kind it is thrown
with. -/
inductive validation_error where
  | invalid_option_value
deriving DecidableEq, Repr

/-- The classification `std::isspace` in the "C" locale: space, tab, line feed, vertical tab,
form feed, carriage return. -/
def isspace (c : Char) : Bool :=
  c.toNat == 32 || (9 ≤ c.toNat && c.toNat ≤ 13)

/-- The conversion `std::tolower` in the "C" locale: the letters `A` to `Z` go to `a` to `z`,
every other character stays. -/
def tolower (c : Char) : Char :=
  if 65 ≤ c.toNat ∧ c.toNat ≤ 90 then Char.ofNat (c.toNat + 32) else c

/-- The extraction `in >> token` into a `std::string`: leading whitespace is skipped, then the
characters up to the next whitespace or the end of the stream are taken; when there is none the
token is empty. The result is the token and the stream after it. -/
def extract_token (input : List Char) : List Char × List Char :=
  let rest := input.dropWhile isspace
  (rest.takeWhile (fun c => !isspace c), rest.dropWhile (fun c => !isspace c))

/-- The operator `operator>>(std::istream&, SpeedAndTurnPenaltyFormat&)`. The first component is
the value of `format` after the call; the second is the stream handed back, or the exception
thrown. -/
def operator_extract (input : List Char) (format : SpeedAndTurnPenaltyFormat) :
    SpeedAndTurnPenaltyFormat × Except validation_error (List Char) :=
  let extracted := extract_token input
  let token := extracted.1.map tolower
  if token = ['c', 's', 'v'] then
    (SpeedAndTurnPenaltyFormat.CSV, .ok extracted.2)
  else if token = ['p', 'a', 'r', 'q', 'u', 'e', 't'] then
    (SpeedAndTurnPenaltyFormat.PARQUET, .ok extracted.2)
  else
    (format, .error .invalid_option_value)

/-- The operator `operator<<(std::ostream&, SpeedAndTurnPenaltyFormat)`: the stream with the
name of the format written to it. -/
def operator_insert (out : List Char) (format : SpeedAndTurnPenaltyFormat) : List Char :=
  match format with
  | .CSV => out ++ ['c', 's', 'v']
  | .PARQUET => out ++ ['p', 'a', 'r', 'q', 'u', 'e', 't']

end Updater

namespace Datafacade

/-- The block `block` stored under `name` has the layout that the view factory of `name`
reads. -/
def has_layout (name : String) (block : Block) : Bool :=
  if name = "/common/properties" then block.as_properties.isSome
  else if name = "/mld/connectivity_checksum" then block.as_uint32.isSome
  else if name = "/ch/connectivity_checksum" then block.as_uint32.isSome
  else if name = "/common/timestamp" then block.as_timestamp.isSome
  else if name = "/common/nbn_data" then block.as_nbn_data.isSome
  else if name = "/common/rtree" then block.as_rtree.isSome
  else if name = "/common/ebg_node_data" then block.as_ebn_data.isSome
  else if name = "/common/turn_data" then block.as_turn_data.isSome
  else if name = "/common/names" then block.as_names.isSome
  else if name = "/common/turn_lanes" then
    block.as_turn_lane_descriptions.isSome && block.as_lane_data.isSome
  else if name = "/common/turn_penalty" then
    block.as_turn_weight.isSome && block.as_turn_duration.isSome
  else if name = "/common/segment_data" then block.as_segment_data.isSome
  else if name = "/common/data_sources_names" then block.as_datasources.isSome
  else if name = "/common/intersection_bearings" then block.as_intersection_bearings.isSome
  else if name = "/common/entry_classes" then block.as_entry_classes.isSome
  else if name = "/common/maneuver_overrides" then block.as_maneuver_overrides.isSome
  else true

/-- Every dataset of the index has the layout that its view factory reads. -/
def layouts_agree (index : SharedDataIndex) : Bool :=
  index.entries.all (fun entry => has_layout entry.1 entry.2)

/-- The computation `x` fails in no other way than with the dataset-not-found failure of index
resolution, for a dataset that is not in the index. -/
def only_not_found {α : Type} (index : SharedDataIndex) (x : Except Error α) : Prop :=
  ∀ e, x = .error e → ∃ name, e = .DatasetNotFound name ∧ isIndexed index name = false

/-- The mandatory datasets without `/common/timestamp`, and no connectivity checksum. -/
def no_checksum_index : SharedDataIndex :=
  index_without { entries := mandatory_entries } ["/common/timestamp"]

/-! ## The halving searches on a partitioned array -/

theorem upper_bound_loop_eq {α β : Type} (comp : β → α → Bool) (xs : List α) (val : β)
    (fuel first len : Nat) :
    upper_bound_loop comp xs val fuel first len
      = lower_bound_loop (fun a v => !comp v a) xs val fuel first len := by
  induction fuel generalizing first len with
  | zero => rfl
  | succ fuel ih =>
    simp only [upper_bound_loop, lower_bound_loop]
    split
    · rfl
    · split
      · rfl
      · rename_i m _
        by_cases h : comp val m = true
        · simp [h, ih]
        · simp [h, ih]

/-- The counter of the lower-bound loop never runs out: every counter of at least `len` gives
the same result. -/
theorem lower_bound_loop_fuel {α β : Type} (comp : α → β → Bool) (xs : List α) (val : β)
    (fuel₁ fuel₂ first len : Nat) (h₁ : len ≤ fuel₁) (h₂ : len ≤ fuel₂) :
    lower_bound_loop comp xs val fuel₁ first len = lower_bound_loop comp xs val fuel₂ first len := by
  induction fuel₁ generalizing fuel₂ first len with
  | zero =>
    have h0 : len = 0 := by omega
    subst h0
    cases fuel₂ <;> simp [lower_bound_loop]
  | succ fuel₁ ih =>
    cases fuel₂ with
    | zero =>
      have h0 : len = 0 := by omega
      subst h0
      simp [lower_bound_loop]
    | succ fuel₂ =>
      simp only [lower_bound_loop]
      split
      · rfl
      · split
        · rfl
        · rw [ih fuel₂ _ _ (by omega) (by omega), ih fuel₂ _ _ (by omega) (by omega)]

/-- The counter of the equal-range loop never runs out: every counter of at least `len` gives
the same result. -/
theorem equal_range_loop_fuel {α β : Type} (c1 : α → β → Bool) (c2 : β → α → Bool)
    (xs : List α) (val : β) (fuel₁ fuel₂ first len : Nat) (h₁ : len ≤ fuel₁) (h₂ : len ≤ fuel₂) :
    equal_range_loop c1 c2 xs val fuel₁ first len
      = equal_range_loop c1 c2 xs val fuel₂ first len := by
  induction fuel₁ generalizing fuel₂ first len with
  | zero =>
    have h0 : len = 0 := by omega
    subst h0
    cases fuel₂ <;> simp [equal_range_loop]
  | succ fuel₁ ih =>
    cases fuel₂ with
    | zero =>
      have h0 : len = 0 := by omega
      subst h0
      simp [equal_range_loop]
    | succ fuel₂ =>
      simp only [equal_range_loop]
      split
      · rfl
      · split
        · rfl
        · rw [ih fuel₂ _ _ (by omega) (by omega), ih fuel₂ _ _ (by omega) (by omega)]

theorem lower_bound_loop_partition {α β : Type} (comp : α → β → Bool) (xs : List α) (val : β)
    (hmono : ∀ i j (hi : i < xs.length) (hj : j < xs.length), i ≤ j →
      comp (xs.get ⟨j, hj⟩) val = true → comp (xs.get ⟨i, hi⟩) val = true)
    (fuel first len : Nat) (hfuel : len ≤ fuel) (hlen : first + len ≤ xs.length)
    (hlow : ∀ i (hi : i < xs.length), i < first → comp (xs.get ⟨i, hi⟩) val = true)
    (hhigh : ∀ i (hi : i < xs.length), first + len ≤ i → comp (xs.get ⟨i, hi⟩) val = false) :
    first ≤ lower_bound_loop comp xs val fuel first len ∧
    lower_bound_loop comp xs val fuel first len ≤ first + len ∧
    (∀ i (hi : i < xs.length), i < lower_bound_loop comp xs val fuel first len →
      comp (xs.get ⟨i, hi⟩) val = true) ∧
    (∀ i (hi : i < xs.length), lower_bound_loop comp xs val fuel first len ≤ i →
      comp (xs.get ⟨i, hi⟩) val = false) := by
  induction fuel generalizing first len with
  | zero =>
    have h0 : len = 0 := by omega
    subst h0
    exact ⟨le_refl _, by simp [lower_bound_loop], hlow, hhigh⟩
  | succ fuel ih =>
    by_cases h0 : len = 0
    · subst h0
      simp only [lower_bound_loop, if_true]
      exact ⟨le_refl _, by omega, hlow, hhigh⟩
    · have hmid : first + len / 2 < xs.length := by omega
      have hget : xs[first + len / 2]? = some (xs.get ⟨first + len / 2, hmid⟩) := by
        simp [List.getElem?_eq_getElem hmid]
      simp only [lower_bound_loop, if_neg h0, hget]
      by_cases hc : comp (xs.get ⟨first + len / 2, hmid⟩) val = true
      · simp only [hc, if_true]
        have := ih (first + len / 2 + 1) (len - len / 2 - 1) (by omega) (by omega)
          (fun i hi hlt => hmono i (first + len / 2) hi hmid (by omega) hc)
          (fun i hi hge => hhigh i hi (by omega))
        refine ⟨by omega, by omega, this.2.2.1, this.2.2.2⟩
      · have hf : comp (xs.get ⟨first + len / 2, hmid⟩) val = false := by
          simpa using hc
        rw [if_neg hc]
        have := ih first (len / 2) (by omega) (by omega) hlow
          (fun i hi hge => by
            cases hci : comp (xs.get ⟨i, hi⟩) val with
            | false => rfl
            | true => exact absurd (hmono (first + len / 2) i hmid hi hge hci) hc)
        refine ⟨this.1, by omega, this.2.2.1, this.2.2.2⟩

theorem equal_range_loop_partition {α β : Type} (c1 : α → β → Bool) (c2 : β → α → Bool)
    (xs : List α) (val : β)
    (hmono1 : ∀ i j (hi : i < xs.length) (hj : j < xs.length), i ≤ j →
      c1 (xs.get ⟨j, hj⟩) val = true → c1 (xs.get ⟨i, hi⟩) val = true)
    (hmono2 : ∀ i j (hi : i < xs.length) (hj : j < xs.length), i ≤ j →
      c2 val (xs.get ⟨i, hi⟩) = true → c2 val (xs.get ⟨j, hj⟩) = true)
    (hexcl : ∀ a, c1 a val = true → c2 val a = false)
    (fuel first len : Nat) (hfuel : len ≤ fuel) (hlen : first + len ≤ xs.length)
    (hlow : ∀ i (hi : i < xs.length), i < first → c1 (xs.get ⟨i, hi⟩) val = true)
    (hhigh : ∀ i (hi : i < xs.length), first + len ≤ i → c2 val (xs.get ⟨i, hi⟩) = true) :
    (equal_range_loop c1 c2 xs val fuel first len).1
      ≤ (equal_range_loop c1 c2 xs val fuel first len).2 ∧
    (equal_range_loop c1 c2 xs val fuel first len).2 ≤ xs.length ∧
    (∀ i (hi : i < xs.length), i < (equal_range_loop c1 c2 xs val fuel first len).1 →
      c1 (xs.get ⟨i, hi⟩) val = true) ∧
    (∀ i (hi : i < xs.length), (equal_range_loop c1 c2 xs val fuel first len).1 ≤ i →
      c1 (xs.get ⟨i, hi⟩) val = false) ∧
    (∀ i (hi : i < xs.length), i < (equal_range_loop c1 c2 xs val fuel first len).2 →
      c2 val (xs.get ⟨i, hi⟩) = false) ∧
    (∀ i (hi : i < xs.length), (equal_range_loop c1 c2 xs val fuel first len).2 ≤ i →
      c2 val (xs.get ⟨i, hi⟩) = true) := by
  have hend : ∀ first len : Nat, len = 0 → first + len ≤ xs.length →
      (∀ i (hi : i < xs.length), i < first → c1 (xs.get ⟨i, hi⟩) val = true) →
      (∀ i (hi : i < xs.length), first + len ≤ i → c2 val (xs.get ⟨i, hi⟩) = true) →
      first ≤ first ∧ first ≤ xs.length ∧
      (∀ i (hi : i < xs.length), i < first → c1 (xs.get ⟨i, hi⟩) val = true) ∧
      (∀ i (hi : i < xs.length), first ≤ i → c1 (xs.get ⟨i, hi⟩) val = false) ∧
      (∀ i (hi : i < xs.length), i < first → c2 val (xs.get ⟨i, hi⟩) = false) ∧
      (∀ i (hi : i < xs.length), first ≤ i → c2 val (xs.get ⟨i, hi⟩) = true) := by
    intro first len h0 hlen hlow hhigh
    subst h0
    refine ⟨le_refl _, by omega, hlow, ?_, fun i hi hlt => hexcl _ (hlow i hi hlt), hhigh⟩
    intro i hi hge
    cases hci : c1 (xs.get ⟨i, hi⟩) val with
    | false => rfl
    | true =>
      have h1 := hexcl _ hci
      have h2 := hhigh i hi hge
      rw [h1] at h2
      exact absurd h2 (by decide)
  induction fuel generalizing first len with
  | zero =>
    have h0 : len = 0 := by omega
    simpa only [equal_range_loop] using hend first len h0 hlen hlow hhigh
  | succ fuel ih =>
    by_cases h0 : len = 0
    · simpa only [equal_range_loop, if_pos h0] using hend first len h0 hlen hlow hhigh
    · have hmid : first + len / 2 < xs.length := by omega
      have hget : xs[first + len / 2]? = some (xs.get ⟨first + len / 2, hmid⟩) := by
        simp [List.getElem?_eq_getElem hmid]
      simp only [equal_range_loop, if_neg h0, hget]
      by_cases hc1 : c1 (xs.get ⟨first + len / 2, hmid⟩) val = true
      · rw [if_pos hc1]
        exact ih (first + len / 2 + 1) (len - len / 2 - 1) (by omega) (by omega)
          (fun i hi hlt => hmono1 i (first + len / 2) hi hmid (by omega) hc1)
          (fun i hi hge => hhigh i hi (by omega))
      · rw [if_neg hc1]
        by_cases hc2 : c2 val (xs.get ⟨first + len / 2, hmid⟩) = true
        · rw [if_pos hc2]
          exact ih first (len / 2) (by omega) (by omega) hlow
            (fun i hi hge => hmono2 (first + len / 2) i hmid hi hge hc2)
        · rw [if_neg hc2]
          have hf1 : c1 (xs.get ⟨first + len / 2, hmid⟩) val = false := by simpa using hc1
          have hf2 : c2 val (xs.get ⟨first + len / 2, hmid⟩) = false := by simpa using hc2
          have hL := lower_bound_loop_partition c1 xs val hmono1
            (first + len / 2 - first) first (first + len / 2 - first) (le_refl _) (by omega) hlow
            (fun i hi hge => by
              cases hci : c1 (xs.get ⟨i, hi⟩) val with
              | false => rfl
              | true =>
                exact absurd (hmono1 (first + len / 2) i hmid hi (by omega) hci) hc1)
          have hR := lower_bound_loop_partition (fun a v => !c2 v a) xs val
            (fun i j hi hj hij hj2 => by
              beta_reduce at hj2 ⊢
              cases hci : c2 val (xs.get ⟨i, hi⟩) with
              | false => rfl
              | true =>
                have := hmono2 i j hi hj hij hci
                rw [this] at hj2
                exact absurd hj2 (by decide))
            (first + len - (first + len / 2 + 1)) (first + len / 2 + 1)
            (first + len - (first + len / 2 + 1)) (le_refl _) (by omega)
            (fun i hi hlt => by
              beta_reduce
              cases hci : c2 val (xs.get ⟨i, hi⟩) with
              | false => rfl
              | true =>
                have := hmono2 i (first + len / 2) hi hmid (by omega) hci
                exact absurd this hc2)
            (fun i hi hge => by
              beta_reduce
              rw [hhigh i hi (by omega)]
              rfl)
          rw [← upper_bound_loop_eq] at hR
          simp only [lower_bound, upper_bound]
          refine ⟨by omega, by omega, hL.2.2.1, hL.2.2.2, ?_, ?_⟩
          · intro i hi hlt
            have := hR.2.2.1 i hi hlt
            beta_reduce at this
            cases hci : c2 val (xs.get ⟨i, hi⟩) with
            | false => rfl
            | true => rw [hci] at this; exact absurd this (by decide)
          · intro i hi hge
            have := hR.2.2.2 i hi hge
            beta_reduce at this
            cases hci : c2 val (xs.get ⟨i, hi⟩) with
            | true => rfl
            | false => rw [hci] at this; exact absurd this (by decide)

/-- A slice `[lo, hi)` of an array is the sub-list of the elements selected by `sel` when `sel`
holds exactly at the positions of the slice. -/
theorem slice_eq_filter {α : Type} (sel : α → Bool) (xs : List α) (lo hi : Nat)
    (hle : lo ≤ hi) (hhi : hi ≤ xs.length)
    (hbelow : ∀ i (hi : i < xs.length), i < lo → sel (xs.get ⟨i, hi⟩) = false)
    (hin : ∀ i (h : i < xs.length), lo ≤ i → i < hi → sel (xs.get ⟨i, h⟩) = true)
    (habove : ∀ i (h : i < xs.length), hi ≤ i → sel (xs.get ⟨i, h⟩) = false) :
    (xs.drop lo).take (hi - lo) = xs.filter sel := by
  have h1 : (xs.take lo).filter sel = [] := by
    rw [List.filter_eq_nil_iff]
    intro a ha
    obtain ⟨n, hn, rfl⟩ := List.getElem_of_mem ha
    have hn2 : n < lo ∧ n < xs.length := by
      rw [List.length_take] at hn
      omega
    rw [List.getElem_take]
    have := hbelow n hn2.2 hn2.1
    simp only [List.get_eq_getElem] at this
    simp [this]
  have h2 : ((xs.drop lo).take (hi - lo)).filter sel = (xs.drop lo).take (hi - lo) := by
    rw [List.filter_eq_self]
    intro a ha
    obtain ⟨n, hn, rfl⟩ := List.getElem_of_mem ha
    have hn2 : n < hi - lo ∧ lo + n < xs.length := by
      rw [List.length_take, List.length_drop] at hn
      omega
    rw [List.getElem_take, List.getElem_drop]
    have := hin (lo + n) hn2.2 (by omega) (by omega)
    simpa only [List.get_eq_getElem] using this
  have h3 : ((xs.drop lo).drop (hi - lo)).filter sel = [] := by
    rw [List.filter_eq_nil_iff]
    intro a ha
    obtain ⟨n, hn, rfl⟩ := List.getElem_of_mem ha
    have hn2 : lo + (hi - lo + n) < xs.length := by
      rw [List.length_drop, List.length_drop] at hn
      omega
    rw [List.getElem_drop, List.getElem_drop]
    have := habove (lo + (hi - lo + n)) hn2 (by omega)
    simp only [List.get_eq_getElem] at this
    simp [this]
  have hsplit : xs = xs.take lo ++ ((xs.drop lo).take (hi - lo) ++ (xs.drop lo).drop (hi - lo)) := by
    rw [List.take_append_drop, List.take_append_drop]
  conv_rhs => rw [hsplit]
  rw [List.filter_append, List.filter_append, h1, h2, h3]
  simp

theorem push_override_ok (node_sequences : List NodeID) (results : List ManeuverOverride)
    (s : StorageManeuverOverride) (h : spans node_sequences s) :
    push_override node_sequences results s = .ok (results ++ [expanded node_sequences s]) := by
  unfold spans at h
  simp [push_override, vector_from_range, h, expanded, bind, Except.bind, pure, Except.pure]

theorem push_override_error (node_sequences : List NodeID) (results : List ManeuverOverride)
    (s : StorageManeuverOverride) (h : ¬ spans node_sequences s) :
    push_override node_sequences results s = .error .OutOfRange := by
  unfold spans at h
  simp [push_override, vector_from_range, h, bind, Except.bind]

theorem foldlM_push_override_ok (node_sequences : List NodeID) (entries : List StorageManeuverOverride)
    (results : List ManeuverOverride) (h : ∀ s ∈ entries, spans node_sequences s) :
    entries.foldlM (push_override node_sequences) results
      = .ok (results ++ entries.map (expanded node_sequences)) := by
  induction entries generalizing results with
  | nil => simp [pure, Except.pure]
  | cons s rest ih =>
    rw [List.foldlM_cons, push_override_ok _ _ _ (h s (List.mem_cons_self _ _))]
    simp only [bind, Except.bind]
    rw [ih _ (fun t ht => h t (List.mem_cons_of_mem _ ht))]
    simp

theorem foldlM_push_override_error (node_sequences : List NodeID)
    (entries : List StorageManeuverOverride) (results : List ManeuverOverride)
    (h : ∃ s ∈ entries, ¬ spans node_sequences s) :
    entries.foldlM (push_override node_sequences) results = .error .OutOfRange := by
  induction entries generalizing results with
  | nil => simp at h
  | cons s rest ih =>
    rw [List.foldlM_cons]
    by_cases hs : spans node_sequences s
    · rw [push_override_ok _ _ _ hs]
      simp only [bind, Except.bind]
      apply ih
      obtain ⟨t, ht, hbad⟩ := h
      rcases List.mem_cons.mp ht with rfl | ht
      · exact absurd hs hbad
      · exact ⟨t, ht, hbad⟩
    · rw [push_override_error _ _ _ hs]
      rfl

theorem overrides_that_start_at_eq (maneuver_overrides : List StorageManeuverOverride)
    (node_sequences : List NodeID) (n : NodeID) :
    overrides_that_start_at maneuver_overrides node_sequences n
      = (selected maneuver_overrides n).foldlM (push_override node_sequences) [] := rfl

/-- On a table sorted by `start_node` the range found by `std::equal_range` holds exactly the
entries that start at the node asked for. -/
theorem selected_eq_filter (maneuver_overrides : List StorageManeuverOverride) (n : NodeID)
    (hsorted : maneuver_overrides.Pairwise (fun a b => a.start_node ≤ b.start_node)) :
    selected maneuver_overrides n = maneuver_overrides.filter (fun s => s.start_node == n) := by
  have hidx := List.pairwise_iff_getElem.mp hsorted
  have hle : ∀ i j (hi : i < maneuver_overrides.length) (hj : j < maneuver_overrides.length),
      i ≤ j → (maneuver_overrides.get ⟨i, hi⟩).start_node
        ≤ (maneuver_overrides.get ⟨j, hj⟩).start_node := by
    intro i j hi hj hij
    rcases Nat.lt_or_eq_of_le hij with hlt | rfl
    · exact hidx i j hi hj hlt
    · exact le_refl _
  have hpart := equal_range_loop_partition Comp.elem_key Comp.key_elem maneuver_overrides n
    (fun i j hi hj hij h => by
      have := hle i j hi hj hij
      simp only [Comp.elem_key, decide_eq_true_eq] at h ⊢
      exact Nat.lt_of_le_of_lt this h)
    (fun i j hi hj hij h => by
      have := hle i j hi hj hij
      simp only [Comp.key_elem, decide_eq_true_eq] at h ⊢
      exact Nat.lt_of_lt_of_le h this)
    (fun a h => by
      simp only [Comp.elem_key, Comp.key_elem, decide_eq_true_eq, decide_eq_false_iff_not] at h ⊢
      exact Nat.lt_asymm h)
    maneuver_overrides.length 0 maneuver_overrides.length (le_refl _) (by omega)
    (fun i hi hlt => absurd hlt (Nat.not_lt_zero _))
    (fun i hi hge => absurd hge (by omega))
  obtain ⟨h1, h2, h3, h4, h5, h6⟩ := hpart
  unfold selected
  simp only [equal_range]
  apply slice_eq_filter _ _ _ _ h1 h2
  · intro i hi hlt
    have := h3 i hi hlt
    simp only [Comp.elem_key, decide_eq_true_eq] at this
    simp only [beq_eq_false_iff_ne, ne_eq]
    exact Nat.ne_of_lt this
  · intro i hi hge hlt
    have a := h4 i hi hge
    have b := h5 i hi hlt
    simp only [Comp.elem_key, Comp.key_elem, decide_eq_false_iff_not] at a b
    simp only [beq_iff_eq]
    exact Nat.le_antisymm (Nat.le_of_not_lt b) (Nat.le_of_not_lt a)
  · intro i hi hge
    have := h6 i hi hge
    simp only [Comp.key_elem, decide_eq_true_eq] at this
    simp only [beq_eq_false_iff_ne, ne_eq]
    exact Nat.ne_of_gt this

/-- C1: on a maneuver-override table sorted by `start_node`, `GetOverridesThatStartAt n` hands
out one override per table entry whose `start_node` is `n`, for those entries only and in the
order of the table. First part: when the entries starting at `n` name ranges of the
node-sequence array, the call returns the expansions of exactly these entries, in table order.
Second part: whenever the call returns, that list is the result. Third part: when no entry
starts at `n` (in particular on the empty table, or for `n` below the first or above the last
`start_node`) the call returns the empty list. -/
theorem GetOverridesThatStartAt_sorted (f : ContiguousInternalMemoryDataFacadeBase) (n : NodeID)
    (hsorted : f.m_maneuver_overrides.Pairwise (fun a b => a.start_node ≤ b.start_node)) :
    ((∀ s ∈ f.m_maneuver_overrides, s.start_node = n →
        spans f.m_maneuver_override_node_sequences s) →
      GetOverridesThatStartAt f n
        = .ok ((f.m_maneuver_overrides.filter (fun s => s.start_node == n)).map
            (expanded f.m_maneuver_override_node_sequences))) ∧
    (∀ results, GetOverridesThatStartAt f n = .ok results →
      results = (f.m_maneuver_overrides.filter (fun s => s.start_node == n)).map
        (expanded f.m_maneuver_override_node_sequences)) ∧
    ((∀ s ∈ f.m_maneuver_overrides, s.start_node ≠ n) → GetOverridesThatStartAt f n = .ok []) := by
  have hsel := selected_eq_filter f.m_maneuver_overrides n hsorted
  have hG : GetOverridesThatStartAt f n
      = (f.m_maneuver_overrides.filter (fun s => s.start_node == n)).foldlM
          (push_override f.m_maneuver_override_node_sequences) [] := by
    rw [← hsel]
    rfl
  refine ⟨?_, ?_, ?_⟩
  · intro hwf
    rw [hG, foldlM_push_override_ok]
    · simp
    · intro s hs
      rw [List.mem_filter] at hs
      exact hwf s hs.1 (by simpa using hs.2)
  · intro results hres
    by_cases hwf : ∀ s ∈ f.m_maneuver_overrides.filter (fun s => s.start_node == n),
        spans f.m_maneuver_override_node_sequences s
    · rw [hG, foldlM_push_override_ok _ _ _ hwf] at hres
      simpa using hres.symm
    · have hbad : ∃ s ∈ f.m_maneuver_overrides.filter (fun s => s.start_node == n),
          ¬ spans f.m_maneuver_override_node_sequences s := by
        by_contra hcon
        exact hwf (fun s hs => by
          by_contra hs2
          exact hcon ⟨s, hs, hs2⟩)
      rw [hG, foldlM_push_override_error _ _ _ hbad] at hres
      exact absurd hres (by simp)
  · intro hnone
    have hnil : f.m_maneuver_overrides.filter (fun s => s.start_node == n) = [] := by
      rw [List.filter_eq_nil_iff]
      intro s hs
      simpa using hnone s hs
    rw [hG, hnil]
    rfl

/-- C2: every table entry `s` that `GetOverridesThatStartAt` selects (an entry inside the range
found by `std::equal_range`, on any table) is answered by one override, in the order of the
range, whose node sequence is the node-sequence array at the positions
`[s.node_sequence_offset_begin, s.node_sequence_offset_end)`, element for element, of length
`s.node_sequence_offset_end - s.node_sequence_offset_begin`, and whose `instruction_node`,
`override_type` and `direction` are those of `s`. First part: the call returns when the selected
entries name ranges of the node-sequence array. Second part: whatever the call returns is as
described. -/
theorem GetOverridesThatStartAt_expands (f : ContiguousInternalMemoryDataFacadeBase) (n : NodeID) :
    ((∀ s ∈ selected f.m_maneuver_overrides n,
        spans f.m_maneuver_override_node_sequences s) →
      ∃ results, GetOverridesThatStartAt f n = .ok results) ∧
    (∀ results, GetOverridesThatStartAt f n = .ok results →
      List.Forall₂ (fun s r =>
        r.node_sequence.length = s.node_sequence_offset_end - s.node_sequence_offset_begin ∧
        (∀ k, k < s.node_sequence_offset_end - s.node_sequence_offset_begin →
          r.node_sequence[k]? =
            f.m_maneuver_override_node_sequences[s.node_sequence_offset_begin + k]?) ∧
        r.instruction_node = s.instruction_node ∧
        r.override_type = s.override_type ∧
        r.direction = s.direction) (selected f.m_maneuver_overrides n) results) := by
  have hG : GetOverridesThatStartAt f n = (selected f.m_maneuver_overrides n).foldlM
      (push_override f.m_maneuver_override_node_sequences) [] := rfl
  refine ⟨fun hwf => ?_, fun results hres => ?_⟩
  · exact ⟨_, by rw [hG, foldlM_push_override_ok _ _ _ hwf]⟩
  · by_cases hwf : ∀ s ∈ selected f.m_maneuver_overrides n,
        spans f.m_maneuver_override_node_sequences s
    · rw [hG, foldlM_push_override_ok _ _ _ hwf] at hres
      simp only [List.nil_append, Except.ok.injEq] at hres
      subst hres
      rw [List.forall₂_map_right_iff]
      apply List.forall₂_same.mpr
      intro s hs
      have hspan := hwf s hs
      unfold spans at hspan
      refine ⟨?_, ?_, rfl, rfl, rfl⟩
      · simp only [expanded, List.length_take, List.length_drop]
        omega
      · intro k hk
        simp only [expanded, List.getElem?_take, List.getElem?_drop, if_pos hk]
    · have hbad : ∃ s ∈ selected f.m_maneuver_overrides n,
          ¬ spans f.m_maneuver_override_node_sequences s := by
        by_contra hcon
        exact hwf (fun s hs => by
          by_contra hs2
          exact hcon ⟨s, hs, hs2⟩)
      rw [hG, foldlM_push_override_error _ _ _ hbad] at hres
      exact absurd hres (by simp)

/-! ## What a successful construction leaves in the members -/

theorem bind_eq_ok {α β : Type} (x : Except Error α) (g : α → Except Error β) (b : β) :
    (x >>= g) = .ok b ↔ ∃ a, x = .ok a ∧ g a = .ok b := by
  cases x <;> simp [bind, Except.bind]

theorem construct_members (assertions : Bool) (index : SharedDataIndex) (metric_name : String)
    (exclude_index : Nat) (f : ContiguousInternalMemoryDataFacadeBase)
    (h : construct assertions index metric_name exclude_index = .ok f) :
    index.GetBlockPtr Block.as_properties "/common/properties" = .ok f.m_profile_properties ∧
    subscript f.m_profile_properties.excludable_classes exclude_index = .ok f.exclude_mask ∧
    (if isIndexed index "/mld/connectivity_checksum" then
        index.GetBlockPtr Block.as_uint32 "/mld/connectivity_checksum"
      else
        (BOOST_ASSERT assertions (isIndexed index "/ch/connectivity_checksum")) >>= fun _ =>
          index.GetBlockPtr Block.as_uint32 "/ch/connectivity_checksum") = .ok f.m_check_sum ∧
    (if isIndexed index "/common/turn_data" then
        (make_turn_data_view index "/common/turn_data") >>= fun view => pure (some view)
      else pure none) = .ok f.turn_data ∧
    (if isIndexed index "/common/names" then
        (make_name_table_view index "/common/names") >>= fun view => pure (some view)
      else pure none) = .ok f.m_name_table ∧
    (if isIndexed index "/common/turn_lanes" then
        (make_turn_lane_description_views index "/common/turn_lanes") >>= fun descriptions =>
          (make_lane_data_view index "/common/turn_lanes") >>= fun pairs =>
            pure (some descriptions.1, some descriptions.2, some pairs)
      else pure (none, none, none))
      = .ok (f.m_lane_description_offsets, f.m_lane_description_masks, f.m_lane_tuple_id_pairs) ∧
    (if isIndexed index "/common/intersection_bearings" then
        (make_intersection_bearings_view index "/common/intersection_bearings") >>= fun view =>
          (make_entry_classes_view index "/common/entry_classes") >>= fun table =>
            pure (some view, some table)
      else pure (none, none)) = .ok (f.intersection_bearings_view, f.m_entry_class_table) ∧
    make_maneuver_overrides_views index "/common/maneuver_overrides"
      = .ok (f.m_maneuver_overrides, f.m_maneuver_override_node_sequences) := by
  unfold construct InitializeInternalPointers at h
  simp only [bind_eq_ok] at h
  obtain ⟨props, hprops, mask, hmask, sum, hsum, ts, hts, nbn, hnbn, rt, hrt, ebn, hebn,
    td, htd, nt, hnt, tl, htl, tw, htw, tdur, htdur, sd, hsd, ds, hds, br, hbr, mo, hmo, hf⟩ := h
  simp only [pure, Except.pure, Except.ok.injEq] at hf
  subst hf
  exact ⟨hprops, hmask, hsum, htd, hnt, htl, hbr, hmo⟩

theorem construct_bare_index (assertions : Bool) :
    construct assertions bare_index "duration" 1 = .ok bare_facade := by
  cases assertions <;> rfl

theorem construct_full_index (assertions : Bool) :
    construct assertions full_index "duration" 1 = .ok full_facade := by
  cases assertions <;> rfl

theorem construct_bearings_index (assertions : Bool) :
    construct assertions bearings_index "duration" 1 = .ok bearings_facade := by
  cases assertions <;> rfl

/-! ## Optional datasets -/

theorem optional_member {α : Type} (c : Bool) (x : Except Error α) (o : Option α)
    (h : (if c = true then x >>= fun v => pure (some v) else pure none) = .ok o) :
    (c = false → o = none) ∧ (c = true → ∃ v, x = .ok v ∧ o = some v) := by
  cases c with
  | false =>
    simp only [Bool.false_eq_true, if_false, pure, Except.pure, Except.ok.injEq] at h
    exact ⟨fun _ => h.symm, fun hc => absurd hc (by decide)⟩
  | true =>
    simp only [if_true, bind_eq_ok, pure, Except.pure, Except.ok.injEq] at h
    obtain ⟨v, hv, hsome⟩ := h
    exact ⟨fun hc => absurd hc (by decide), fun _ => ⟨v, hv, hsome.symm⟩⟩

theorem isIndexed_eq_isSome (index : SharedDataIndex) (name : String) :
    isIndexed index name = (index.entries.lookup name).isSome := by
  unfold isIndexed SharedDataIndex.List
  induction index.entries with
  | nil => rfl
  | cons entry rest ih =>
    obtain ⟨key, block⟩ := entry
    by_cases hk : (key == name) = true
    · have hk2 : (name == key) = true := by
        rw [beq_iff_eq] at hk ⊢
        exact hk.symm
      simp only [List.filter_cons, hk, if_true, List.map_cons, List.foldl_cons, List.lookup_cons,
        hk2, Option.isSome_some]
      clear ih
      induction (List.map (fun entry => entry.1) (List.filter (fun entry => entry.1 == name) rest)) with
      | nil => rfl
      | cons _ _ ih2 => simpa using ih2
    · have hk2 : (name == key) = false := by
        rw [Bool.not_eq_true, beq_eq_false_iff_ne] at hk
        rw [beq_eq_false_iff_ne]
        exact fun h => hk h.symm
      simp only [List.filter_cons, hk, List.lookup_cons, hk2]
      exact ih

theorem GetBlockPtr_not_indexed {T : Type} (index : SharedDataIndex) (as : Block → Option T)
    (name : String) (h : isIndexed index name = false) :
    index.GetBlockPtr as name = .error (.DatasetNotFound name) := by
  rw [isIndexed_eq_isSome] at h
  unfold SharedDataIndex.GetBlockPtr SharedDataIndex.resolve
  cases hl : index.entries.lookup name with
  | none => rfl
  | some b => rw [hl] at h; simp at h

/-! ## The claims on the accessors -/

/-- C3: for every node id and every exclude mask, `ExcludeNode n` is true exactly when
`GetClassData n & exclude_mask` is not zero; so it is true when the class data of the node meets
the mask, and false for every node when the mask is zero. -/
theorem ExcludeNode_iff (f : ContiguousInternalMemoryDataFacadeBase) (n : NodeID) :
    (ExcludeNode f n = true ↔ (GetClassData f n &&& f.exclude_mask) ≠ 0) ∧
    (f.exclude_mask = 0 → ExcludeNode f n = false) := by
  refine ⟨?_, ?_⟩
  · simp only [ExcludeNode, GetClassData, decide_eq_true_eq]
    exact Nat.pos_iff_ne_zero
  · intro h0
    simp only [ExcludeNode, h0, Nat.and_zero]
    rfl

/-- C4: on a facade built over an index without `/common/turn_data`,
`GetTurnInstructionForEdgeID` fails for every edge id with the disabled-dataset error named
"TurnData"; on a facade built over an index with it, the call returns the turn instruction that
the turn-data view holds for the edge id. -/
theorem GetTurnInstructionForEdgeID_dataset (assertions : Bool) (index : SharedDataIndex)
    (metric_name : String) (exclude_index : Nat) (f : ContiguousInternalMemoryDataFacadeBase)
    (h : construct assertions index metric_name exclude_index = .ok f) (edge : EdgeID) :
    (isIndexed index "/common/turn_data" = false →
      GetTurnInstructionForEdgeID f edge = .error (.DisabledDataset "TurnData")) ∧
    (isIndexed index "/common/turn_data" = true →
      ∃ view, make_turn_data_view index "/common/turn_data" = .ok view ∧
        f.turn_data = some view ∧
        GetTurnInstructionForEdgeID f edge = .ok (view.GetTurnInstruction edge)) := by
  have hm := optional_member _ _ _ (construct_members _ _ _ _ _ h).2.2.2.1
  refine ⟨fun hc => ?_, fun hc => ?_⟩
  · simp only [GetTurnInstructionForEdgeID, hm.1 hc]
    rfl
  · obtain ⟨view, hview, hsome⟩ := hm.2 hc
    refine ⟨view, hview, hsome, ?_⟩
    simp only [GetTurnInstructionForEdgeID, hsome]
    rfl

theorem GetTurnInstructionForEdgeID_dataset_witness :
    (construct true bare_index "duration" 1 = .ok bare_facade ∧
      GetTurnInstructionForEdgeID bare_facade 5 = .error (.DisabledDataset "TurnData")) ∧
    (construct true full_index "duration" 1 = .ok full_facade ∧
      ∃ view, make_turn_data_view full_index "/common/turn_data" = .ok view ∧
        full_facade.turn_data = some view ∧
        GetTurnInstructionForEdgeID full_facade 5 = .ok (view.GetTurnInstruction 5)) :=
  ⟨⟨construct_bare_index true,
    (GetTurnInstructionForEdgeID_dataset true bare_index "duration" 1 bare_facade
      (construct_bare_index true) 5).1 (by decide)⟩,
   ⟨construct_full_index true,
    (GetTurnInstructionForEdgeID_dataset true full_index "duration" 1 full_facade
      (construct_full_index true) 5).2 (by decide)⟩⟩

/-- C5: each of `GetNameForID`, `GetRefForID`, `GetPronunciationForID`, `GetDestinationsForID`
and `GetExitsForID` fails, for every name id, with the disabled-dataset error named "NameData"
exactly when `/common/names` was not in the index at construction; when it was, each returns
what the name-table view gives for the id. -/
theorem name_lookups_dataset (assertions : Bool) (index : SharedDataIndex)
    (metric_name : String) (exclude_index : Nat) (f : ContiguousInternalMemoryDataFacadeBase)
    (h : construct assertions index metric_name exclude_index = .ok f) (id : NameID) :
    ((GetNameForID f id = .error (.DisabledDataset "NameData")
        ↔ isIndexed index "/common/names" = false) ∧
      (GetRefForID f id = .error (.DisabledDataset "NameData")
        ↔ isIndexed index "/common/names" = false) ∧
      (GetPronunciationForID f id = .error (.DisabledDataset "NameData")
        ↔ isIndexed index "/common/names" = false) ∧
      (GetDestinationsForID f id = .error (.DisabledDataset "NameData")
        ↔ isIndexed index "/common/names" = false) ∧
      (GetExitsForID f id = .error (.DisabledDataset "NameData")
        ↔ isIndexed index "/common/names" = false)) ∧
    (isIndexed index "/common/names" = true →
      ∃ view, make_name_table_view index "/common/names" = .ok view ∧
        f.m_name_table = some view ∧
        GetNameForID f id = .ok (view.GetNameForID id) ∧
        GetRefForID f id = .ok (view.GetRefForID id) ∧
        GetPronunciationForID f id = .ok (view.GetPronunciationForID id) ∧
        GetDestinationsForID f id = .ok (view.GetDestinationsForID id) ∧
        GetExitsForID f id = .ok (view.GetExitsForID id)) := by
  have hm := optional_member _ _ _ (construct_members _ _ _ _ _ h).2.2.2.2.1
  have hpresent : isIndexed index "/common/names" = true →
      ∃ view, make_name_table_view index "/common/names" = .ok view ∧
        f.m_name_table = some view ∧
        GetNameForID f id = .ok (view.GetNameForID id) ∧
        GetRefForID f id = .ok (view.GetRefForID id) ∧
        GetPronunciationForID f id = .ok (view.GetPronunciationForID id) ∧
        GetDestinationsForID f id = .ok (view.GetDestinationsForID id) ∧
        GetExitsForID f id = .ok (view.GetExitsForID id) := by
    intro hc
    obtain ⟨view, hview, hsome⟩ := hm.2 hc
    refine ⟨view, hview, hsome, ?_, ?_, ?_, ?_, ?_⟩ <;>
      simp only [GetNameForID, GetRefForID, GetPronunciationForID, GetDestinationsForID,
        GetExitsForID, hsome] <;> rfl
  refine ⟨?_, hpresent⟩
  cases hc : isIndexed index "/common/names" with
  | false =>
    have hnone := hm.1 hc
    simp only [GetNameForID, GetRefForID, GetPronunciationForID, GetDestinationsForID,
      GetExitsForID, hnone, iff_true]
    exact ⟨rfl, rfl, rfl, rfl, rfl⟩
  | true =>
    obtain ⟨view, _, _, h1, h2, h3, h4, h5⟩ := hpresent hc
    rw [h1, h2, h3, h4, h5]
    simp

theorem name_lookups_dataset_witness :
    construct false full_index "duration" 1 = .ok full_facade ∧
    isIndexed full_index "/common/names" = true ∧
    GetNameForID full_facade 7 ≠ .error (.DisabledDataset "NameData") ∧
    construct false bare_index "duration" 1 = .ok bare_facade ∧
    GetExitsForID bare_facade 7 = .error (.DisabledDataset "NameData") :=
  ⟨construct_full_index false, by decide,
   fun hfail =>
     absurd ((name_lookups_dataset false full_index "duration" 1 full_facade
       (construct_full_index false) 7).1.1.mp hfail) (by decide),
   construct_bare_index false,
   (name_lookups_dataset false bare_index "duration" 1 bare_facade
     (construct_bare_index false) 7).1.2.2.2.2.mpr (by decide)⟩

/-- C6: the entry-class table is gated by `/common/intersection_bearings`. On a facade built over
an index without `/common/intersection_bearings`, `GetEntryClass` fails for every edge id with
the disabled-dataset error named "EntryClass", whatever else the index holds, and
`GetBearingClass` fails with the one named "IntersectionBearings"; on a facade built over an
index with intersection bearings but without `/common/turn_data`, `GetEntryClass` fails with the
one named "TurnData". -/
theorem entry_class_gated (assertions : Bool) (index : SharedDataIndex)
    (metric_name : String) (exclude_index : Nat) (f : ContiguousInternalMemoryDataFacadeBase)
    (h : construct assertions index metric_name exclude_index = .ok f) :
    (isIndexed index "/common/intersection_bearings" = false →
      (∀ edge, GetEntryClass f edge = .error (.DisabledDataset "EntryClass")) ∧
      (∀ node, GetBearingClass f node = .error (.DisabledDataset "IntersectionBearings"))) ∧
    (isIndexed index "/common/intersection_bearings" = true →
      isIndexed index "/common/turn_data" = false →
      ∀ edge, GetEntryClass f edge = .error (.DisabledDataset "TurnData")) := by
  have hmem := construct_members _ _ _ _ _ h
  have htd := optional_member _ _ _ hmem.2.2.2.1
  have hbr := hmem.2.2.2.2.2.2.1
  refine ⟨fun hc => ?_, fun hc hno edge => ?_⟩
  · simp only [hc, Bool.false_eq_true, if_false, pure, Except.pure, Except.ok.injEq,
      Prod.mk.injEq] at hbr
    refine ⟨fun edge => ?_, fun node => ?_⟩
    · simp only [GetEntryClass, ← hbr.2]
      rfl
    · simp only [GetBearingClass, ← hbr.1]
      rfl
  · simp only [hc, if_true, bind_eq_ok, pure, Except.pure, Except.ok.injEq, Prod.mk.injEq] at hbr
    obtain ⟨view, _, table, _, _, htable⟩ := hbr
    simp only [GetEntryClass, ← htable, htd.1 hno]
    rfl

theorem entry_class_gated_witness :
    (construct true bare_index "duration" 1 = .ok bare_facade ∧
      (∀ edge, GetEntryClass bare_facade edge = .error (.DisabledDataset "EntryClass")) ∧
      (∀ node, GetBearingClass bare_facade node
        = .error (.DisabledDataset "IntersectionBearings"))) ∧
    (construct true bearings_index "duration" 1 = .ok bearings_facade ∧
      ∀ edge, GetEntryClass bearings_facade edge = .error (.DisabledDataset "TurnData")) :=
  ⟨⟨construct_bare_index true,
    (entry_class_gated true bare_index "duration" 1 bare_facade
      (construct_bare_index true)).1 (by decide)⟩,
   ⟨construct_bearings_index true,
    (entry_class_gated true bearings_index "duration" 1 bearings_facade
      (construct_bearings_index true)).2 (by decide) (by decide)⟩⟩

/-- C7: on a facade built over an index without `/common/turn_lanes`, `GetTurnDescription` fails
with the disabled-dataset error of the turn-lane dataset for every lane description id, the
invalid id included (whatever value `INVALID_LANE_DESCRIPTIONID` has), and the name this error
carries is none of the names reported for the turn-data, name, intersection-bearings and
entry-class datasets. -/
theorem GetTurnDescription_disabled (assertions : Bool) (index : SharedDataIndex)
    (metric_name : String) (exclude_index : Nat) (f : ContiguousInternalMemoryDataFacadeBase)
    (h : construct assertions index metric_name exclude_index = .ok f)
    (habsent : isIndexed index "/common/turn_lanes" = false)
    (INVALID_LANE_DESCRIPTIONID id : LaneDescriptionID) :
    GetTurnDescription INVALID_LANE_DESCRIPTIONID f id
      = .error (.DisabledDataset DATASET_TURN_LANE_DATA) ∧
    GetTurnDescription INVALID_LANE_DESCRIPTIONID f INVALID_LANE_DESCRIPTIONID
      = .error (.DisabledDataset DATASET_TURN_LANE_DATA) ∧
    DATASET_TURN_LANE_DATA ≠ DATASET_TURN_DATA ∧
    DATASET_TURN_LANE_DATA ≠ DATASET_NAME_DATA ∧
    DATASET_TURN_LANE_DATA ≠ DATASET_INTERSECTION_BEARINGS ∧
    DATASET_TURN_LANE_DATA ≠ DATASET_ENTRY_CLASS := by
  have htl := (construct_members _ _ _ _ _ h).2.2.2.2.2.1
  simp only [habsent, Bool.false_eq_true, if_false, pure, Except.pure, Except.ok.injEq,
    Prod.mk.injEq] at htl
  have hall : ∀ id, GetTurnDescription INVALID_LANE_DESCRIPTIONID f id
      = .error (.DisabledDataset DATASET_TURN_LANE_DATA) := by
    intro id
    simp only [GetTurnDescription, ← htl.1]
    rfl
  exact ⟨hall id, hall _, by decide, by decide, by decide, by decide⟩

theorem GetTurnDescription_disabled_witness :
    construct true bare_index "duration" 1 = .ok bare_facade ∧
    isIndexed bare_index "/common/turn_lanes" = false ∧
    GetTurnDescription 65535 bare_facade 2 = .error (.DisabledDataset "NameLaneData") ∧
    GetTurnDescription 65535 bare_facade 65535 = .error (.DisabledDataset "NameLaneData") :=
  ⟨construct_bare_index true, by decide,
   (GetTurnDescription_disabled true bare_index "duration" 1 bare_facade
     (construct_bare_index true) (by decide) 65535 2).1,
   (GetTurnDescription_disabled true bare_index "duration" 1 bare_facade
     (construct_bare_index true) (by decide) 65535 2).2.1⟩

/-- C8: on a facade built over an index with `/common/turn_lanes`, the offsets and masks are the
views of that dataset, `GetTurnDescription INVALID_LANE_DESCRIPTIONID` returns the empty
description, and for every other id with `id + 1` inside the offsets table it returns the masks
at the positions `[offsets[id], offsets[id + 1])` of the mask array, in order:
`offsets[id + 1] - offsets[id]` masks. The call returns when the two offsets name a range of the
mask array (third part), and whatever it returns is as described (fourth part). -/
theorem GetTurnDescription_present (assertions : Bool) (index : SharedDataIndex)
    (metric_name : String) (exclude_index : Nat) (f : ContiguousInternalMemoryDataFacadeBase)
    (h : construct assertions index metric_name exclude_index = .ok f)
    (hpresent : isIndexed index "/common/turn_lanes" = true)
    (INVALID_LANE_DESCRIPTIONID : LaneDescriptionID) :
    ∃ offsets masks,
      make_turn_lane_description_views index "/common/turn_lanes" = .ok (offsets, masks) ∧
      (f.m_lane_description_offsets = some offsets ∧ f.m_lane_description_masks = some masks) ∧
      GetTurnDescription INVALID_LANE_DESCRIPTIONID f INVALID_LANE_DESCRIPTIONID = .ok [] ∧
      (∀ id first last, id ≠ INVALID_LANE_DESCRIPTIONID →
        offsets[id]? = some first → offsets[id + 1]? = some last →
        first ≤ last → last ≤ masks.length →
        ∃ description,
          GetTurnDescription INVALID_LANE_DESCRIPTIONID f id = .ok description ∧
          description.length = last - first ∧
          ∀ k, k < last - first → description[k]? = masks[first + k]?) ∧
      (∀ id description, id ≠ INVALID_LANE_DESCRIPTIONID →
        GetTurnDescription INVALID_LANE_DESCRIPTIONID f id = .ok description →
        ∃ first last, offsets[id]? = some first ∧ offsets[id + 1]? = some last ∧
          description.length = last - first ∧
          ∀ k, k < last - first → description[k]? = masks[first + k]?) := by
  have htl := (construct_members _ _ _ _ _ h).2.2.2.2.2.1
  simp only [hpresent, if_true, bind_eq_ok, pure, Except.pure, Except.ok.injEq,
    Prod.mk.injEq] at htl
  obtain ⟨descriptions, hdesc, pairs, _, hoff, hmask, _⟩ := htl
  have hslice : ∀ first last : Nat, first ≤ last → last ≤ descriptions.2.length →
      ((descriptions.2.drop first).take (last - first)).length = last - first ∧
      ∀ k, k < last - first →
        ((descriptions.2.drop first).take (last - first))[k]? = descriptions.2[first + k]? := by
    intro first last hle hin
    refine ⟨?_, fun k hk => ?_⟩
    · simp only [List.length_take, List.length_drop]
      omega
    · simp only [List.getElem?_take, List.getElem?_drop, if_pos hk]
  refine ⟨descriptions.1, descriptions.2, hdesc, ⟨hoff.symm, hmask.symm⟩, ?_, ?_, ?_⟩
  · simp only [GetTurnDescription, ← hoff, ← hmask, CHECK_DATASET_DISABLED, if_true]
    rfl
  · intro id first last hid hfirst hlast hle hin
    refine ⟨(descriptions.2.drop first).take (last - first), ?_, hslice first last hle hin⟩
    simp only [GetTurnDescription, ← hoff, ← hmask, CHECK_DATASET_DISABLED, if_neg hid,
      subscript, hfirst, hlast, vector_from_range, hle, hin, and_self, if_true, bind,
      Except.bind]
  · intro id description hid hret
    simp only [GetTurnDescription, ← hoff, ← hmask, CHECK_DATASET_DISABLED, if_neg hid,
      bind_eq_ok, Except.ok.injEq, exists_eq_left'] at hret
    obtain ⟨first, hfirst, last, hlast, hrange⟩ := hret
    have hfirst2 : descriptions.1[id]? = some first := by
      unfold subscript at hfirst
      cases ho : descriptions.1[id]? with
      | none => rw [ho] at hfirst; exact absurd hfirst (by simp)
      | some v => rw [ho] at hfirst; simpa using hfirst
    have hlast2 : descriptions.1[id + 1]? = some last := by
      unfold subscript at hlast
      cases ho : descriptions.1[id + 1]? with
      | none => rw [ho] at hlast; exact absurd hlast (by simp)
      | some v => rw [ho] at hlast; simpa using hlast
    unfold vector_from_range at hrange
    by_cases hwf : first ≤ last ∧ last ≤ descriptions.2.length
    · rw [if_pos hwf] at hrange
      simp only [Except.ok.injEq] at hrange
      subst hrange
      exact ⟨first, last, hfirst2, hlast2, hslice first last hwf.1 hwf.2⟩
    · rw [if_neg hwf] at hrange
      exact absurd hrange (by simp)

theorem GetTurnDescription_present_witness :
    construct false full_index "duration" 1 = .ok full_facade ∧
    isIndexed full_index "/common/turn_lanes" = true ∧
    GetTurnDescription 65535 full_facade 2 = .ok [4, 8, 16] ∧
    ∃ offsets masks,
      make_turn_lane_description_views full_index "/common/turn_lanes" = .ok (offsets, masks) ∧
      (full_facade.m_lane_description_offsets = some offsets ∧
        full_facade.m_lane_description_masks = some masks) ∧
      GetTurnDescription 65535 full_facade 65535 = .ok [] ∧
      (∀ id first last, id ≠ 65535 →
        offsets[id]? = some first → offsets[id + 1]? = some last →
        first ≤ last → last ≤ masks.length →
        ∃ description,
          GetTurnDescription 65535 full_facade id = .ok description ∧
          description.length = last - first ∧
          ∀ k, k < last - first → description[k]? = masks[first + k]?) ∧
      (∀ id description, id ≠ 65535 →
        GetTurnDescription 65535 full_facade id = .ok description →
        ∃ first last, offsets[id]? = some first ∧ offsets[id + 1]? = some last ∧
          description.length = last - first ∧
          ∀ k, k < last - first → description[k]? = masks[first + k]?) :=
  ⟨construct_full_index false, by decide, rfl,
   GetTurnDescription_present false full_index "duration" 1 full_facade
     (construct_full_index false) (by decide) 65535⟩

/-- C9: `GetCheckSum` is the connectivity checksum of the algorithm dataset that is present: when
`/mld/connectivity_checksum` is in the index it is the value stored there, whether or not
`/ch/connectivity_checksum` is in the index too; when only `/ch/connectivity_checksum` is in the
index it is the value stored there. -/
theorem GetCheckSum_source (assertions : Bool) (index : SharedDataIndex)
    (metric_name : String) (exclude_index : Nat) (f : ContiguousInternalMemoryDataFacadeBase)
    (h : construct assertions index metric_name exclude_index = .ok f) :
    (isIndexed index "/mld/connectivity_checksum" = true →
      index.GetBlockPtr Block.as_uint32 "/mld/connectivity_checksum" = .ok (GetCheckSum f)) ∧
    (isIndexed index "/mld/connectivity_checksum" = false →
      isIndexed index "/ch/connectivity_checksum" = true →
      index.GetBlockPtr Block.as_uint32 "/ch/connectivity_checksum" = .ok (GetCheckSum f)) := by
  have hsum := (construct_members _ _ _ _ _ h).2.2.1
  refine ⟨fun hmld => ?_, fun hmld hch => ?_⟩
  · simpa only [hmld, if_true] using hsum
  · simp only [hmld, hch, Bool.false_eq_true, if_false, bind_eq_ok] at hsum
    obtain ⟨_, _, hget⟩ := hsum
    exact hget

theorem GetCheckSum_source_witness :
    (construct true full_index "duration" 1 = .ok full_facade ∧
      isIndexed full_index "/mld/connectivity_checksum" = true ∧
      isIndexed full_index "/ch/connectivity_checksum" = true ∧
      full_index.GetBlockPtr Block.as_uint32 "/mld/connectivity_checksum"
        = .ok (GetCheckSum full_facade) ∧
      GetCheckSum full_facade = 77) ∧
    (construct true bare_index "duration" 1 = .ok bare_facade ∧
      bare_index.GetBlockPtr Block.as_uint32 "/ch/connectivity_checksum"
        = .ok (GetCheckSum bare_facade) ∧
      GetCheckSum bare_facade = 99) :=
  ⟨⟨construct_full_index true, by decide, by decide,
    (GetCheckSum_source true full_index "duration" 1 full_facade
      (construct_full_index true)).1 (by decide), rfl⟩,
   ⟨construct_bare_index true,
    (GetCheckSum_source true bare_index "duration" 1 bare_facade
      (construct_bare_index true)).2 (by decide) (by decide), rfl⟩⟩

/-- C10: constructing the attribute facade over an index that holds neither
`/mld/connectivity_checksum` nor `/ch/connectivity_checksum` fails, for every metric name and
exclusion index, in a build with assertions and in a build without: no facade is produced. -/
theorem construct_without_checksum (assertions : Bool) (index : SharedDataIndex)
    (metric_name : String) (exclude_index : Nat)
    (hmld : isIndexed index "/mld/connectivity_checksum" = false)
    (hch : isIndexed index "/ch/connectivity_checksum" = false) :
    ∃ e, construct assertions index metric_name exclude_index = .error e := by
  cases hc : construct assertions index metric_name exclude_index with
  | error e => exact ⟨e, rfl⟩
  | ok f =>
    have hsum := (construct_members _ _ _ _ _ hc).2.2.1
    simp only [hmld, Bool.false_eq_true, if_false, bind_eq_ok,
      GetBlockPtr_not_indexed index Block.as_uint32 _ hch] at hsum
    obtain ⟨_, _, hget⟩ := hsum
    exact absurd hget (by simp)

theorem construct_without_checksum_witness :
    isIndexed { entries := mandatory_entries } "/mld/connectivity_checksum" = false ∧
    isIndexed { entries := mandatory_entries } "/ch/connectivity_checksum" = false ∧
    ∃ e, construct false { entries := mandatory_entries } "duration" 0 = .error e :=
  ⟨by decide, by decide,
   construct_without_checksum false { entries := mandatory_entries } "duration" 0
     (by decide) (by decide)⟩

theorem GetOverridesThatStartAt_sorted_witness :
    full_facade.m_maneuver_overrides.Pairwise (fun a b => a.start_node ≤ b.start_node) ∧
    GetOverridesThatStartAt full_facade 3
      = .ok [ { node_sequence := [3, 30, 31], instruction_node := 11, override_type := 2,
                direction := 1 },
              { node_sequence := [3], instruction_node := 12, override_type := 3,
                direction := 2 } ] ∧
    GetOverridesThatStartAt full_facade 4 = .ok [] :=
  ⟨by decide,
   (GetOverridesThatStartAt_sorted full_facade 3 (by decide)).1 (by decide),
   (GetOverridesThatStartAt_sorted full_facade 4 (by decide)).2.2 (by decide)⟩

theorem GetOverridesThatStartAt_expands_witness :
    (∀ s ∈ selected bare_facade.m_maneuver_overrides 3,
      spans bare_facade.m_maneuver_override_node_sequences s) ∧
    (∃ results, GetOverridesThatStartAt bare_facade 3 = .ok results) ∧
    GetOverridesThatStartAt bare_facade 3
      = .ok [ { node_sequence := [3, 30, 31], instruction_node := 11, override_type := 2,
                direction := 1 },
              { node_sequence := [3], instruction_node := 12, override_type := 3,
                direction := 2 } ] ∧
    List.Forall₂ (fun (s : StorageManeuverOverride) (r : ManeuverOverride) =>
        r.node_sequence.length = s.node_sequence_offset_end - s.node_sequence_offset_begin ∧
        (∀ k, k < s.node_sequence_offset_end - s.node_sequence_offset_begin →
          r.node_sequence[k]? =
            bare_facade.m_maneuver_override_node_sequences[s.node_sequence_offset_begin + k]?) ∧
        r.instruction_node = s.instruction_node ∧
        r.override_type = s.override_type ∧
        r.direction = s.direction) (selected bare_facade.m_maneuver_overrides 3)
      [ { node_sequence := [3, 30, 31], instruction_node := 11, override_type := 2,
          direction := 1 },
        { node_sequence := [3], instruction_node := 12, override_type := 3, direction := 2 } ] :=
  ⟨by decide, (GetOverridesThatStartAt_expands bare_facade 3).1 (by decide), rfl,
   (GetOverridesThatStartAt_expands bare_facade 3).2 _ rfl⟩

/-! ## The claims on the construction and on the unsorted table -/

/-- C15: the facade does not check that the maneuver-override table is sorted, and the lookup
needs it: there are an index whose table is not sorted by `start_node`, over which the
construction succeeds, and a node id `n` such that an entry of the table starts at `n` (and
names a range of the node-sequence array) while `GetOverridesThatStartAt n` returns no
override at all. -/
theorem GetOverridesThatStartAt_needs_sorted :
    ∃ (index : SharedDataIndex) (f : ContiguousInternalMemoryDataFacadeBase) (n : NodeID),
      (∀ assertions, construct assertions index "duration" 1 = .ok f) ∧
      ¬ f.m_maneuver_overrides.Pairwise (fun a b => a.start_node ≤ b.start_node) ∧
      (∃ s ∈ f.m_maneuver_overrides,
        s.start_node = n ∧ spans f.m_maneuver_override_node_sequences s) ∧
      GetOverridesThatStartAt f n = .ok [] :=
  ⟨unsorted_index, unsorted_facade, 3,
   fun assertions => by cases assertions <;> rfl,
   by decide, by decide, rfl⟩

/-- C16: constructing the attribute facade over an index that holds
`/common/intersection_bearings` but not `/common/entry_classes` fails: once intersection
bearings are present the entry-class dataset is resolved without a check of its own. -/
theorem construct_bearings_without_entry_classes (assertions : Bool) (index : SharedDataIndex)
    (metric_name : String) (exclude_index : Nat)
    (hbearings : isIndexed index "/common/intersection_bearings" = true)
    (hclasses : isIndexed index "/common/entry_classes" = false) :
    ∃ e, construct assertions index metric_name exclude_index = .error e := by
  cases hc : construct assertions index metric_name exclude_index with
  | error e => exact ⟨e, rfl⟩
  | ok f =>
    have hbr := (construct_members _ _ _ _ _ hc).2.2.2.2.2.2.1
    simp only [hbearings, if_true, bind_eq_ok, make_entry_classes_view,
      GetBlockPtr_not_indexed index Block.as_entry_classes _ hclasses] at hbr
    obtain ⟨_, _, _, hget, _⟩ := hbr
    exact absurd hget (by simp)

theorem construct_bearings_without_entry_classes_witness :
    isIndexed bearings_only_index "/common/intersection_bearings" = true ∧
    isIndexed bearings_only_index "/common/entry_classes" = false ∧
    (∃ e, construct true bearings_only_index "duration" 1 = .error e) ∧
    construct true bearings_only_index "duration" 1
      = .error (.DatasetNotFound "/common/entry_classes") :=
  ⟨by decide, by decide,
   construct_bearings_without_entry_classes true bearings_only_index "duration" 1
     (by decide) (by decide),
   rfl⟩

/-! ## Construction over an index with datasets left out -/

theorem ok_bind {α β : Type} (v : α) (k : α → Except Error β) :
    ((Except.ok v : Except Error α) >>= k) = k v := rfl

theorem error_bind {α β : Type} (e : Error) (k : α → Except Error β) :
    ((Except.error e : Except Error α) >>= k) = Except.error e := rfl

theorem pure_bind_except {α β : Type} (v : α) (k : α → Except Error β) :
    ((pure v : Except Error α) >>= k) = k v := rfl

theorem lookup_without (index : SharedDataIndex) (names : List String) (name : String) :
    (index_without index names).entries.lookup name
      = if names.contains name = true then none else index.entries.lookup name := by
  unfold index_without
  simp only
  induction index.entries with
  | nil => simp
  | cons entry rest ih =>
    obtain ⟨key, block⟩ := entry
    by_cases hk : names.contains key = true
    · simp only [List.filter_cons, hk, Bool.not_true, Bool.false_eq_true, if_false, ih,
        List.lookup_cons]
      by_cases hn : names.contains name = true
      · simp only [hn, if_true]
      · simp only [hn, if_false]
        have hne : (name == key) = false := by
          rw [beq_eq_false_iff_ne]
          intro heq
          rw [heq] at hn
          exact hn hk
        simp only [hne]
    · simp only [List.filter_cons, hk, Bool.not_false, if_true, List.lookup_cons, ih]
      by_cases hn : names.contains name = true
      · simp only [hn, if_true]
        have hne : (name == key) = false := by
          rw [beq_eq_false_iff_ne]
          intro heq
          rw [heq] at hn
          exact hk hn
        simp only [hne]
      · simp only [hn, if_false]
        cases name == key <;> simp

theorem GetBlockPtr_without {T : Type} (index : SharedDataIndex) (names : List String)
    (as : Block → Option T) (name : String) :
    (index_without index names).GetBlockPtr as name
      = if names.contains name = true then .error (.DatasetNotFound name)
        else index.GetBlockPtr as name := by
  unfold SharedDataIndex.GetBlockPtr SharedDataIndex.resolve
  rw [lookup_without]
  by_cases hn : names.contains name = true
  · simp only [hn, if_true]
  · simp only [hn, if_false]
    simp

theorem isIndexed_without (index : SharedDataIndex) (names : List String) (name : String) :
    isIndexed (index_without index names) name
      = (!names.contains name && isIndexed index name) := by
  rw [isIndexed_eq_isSome, isIndexed_eq_isSome, lookup_without]
  by_cases hn : names.contains name = true
  · simp only [hn, if_true, Bool.not_true, Bool.false_and]
    rfl
  · simp only [hn, if_false]
    rw [Bool.not_eq_true] at hn
    simp only [hn, Bool.not_false, Bool.true_and, Bool.false_eq_true, if_false]

/-! ## The ways in which the construction fails -/

theorem only_not_found_bind {α β : Type} (index : SharedDataIndex) (x : Except Error α)
    (k : α → Except Error β) (hx : only_not_found index x)
    (hk : ∀ v, x = .ok v → only_not_found index (k v)) :
    only_not_found index (x >>= k) := by
  cases x with
  | error e =>
    intro e' he'
    have he2 : (Except.error e : Except Error α) = Except.error e' := by
      cases he'
      rfl
    exact hx e' he2
  | ok v => exact hk v rfl

theorem only_not_found_ok {α : Type} (index : SharedDataIndex) (x : Except Error α) (v : α)
    (h : x = .ok v) : only_not_found index x := by
  intro e he
  rw [h] at he
  exact absurd he (by simp)

theorem lookup_mem (entries : List (String × Block)) (name : String) (block : Block)
    (h : entries.lookup name = some block) : (name, block) ∈ entries := by
  induction entries with
  | nil => simp at h
  | cons entry rest ih =>
    obtain ⟨key, b⟩ := entry
    by_cases hk : (name == key) = true
    · simp only [List.lookup_cons, hk, Option.some.injEq] at h
      rw [beq_iff_eq] at hk
      rw [hk, h]
      exact List.mem_cons_self _ _
    · rw [Bool.not_eq_true] at hk
      simp only [List.lookup_cons, hk] at h
      exact List.mem_cons_of_mem _ (ih h)

theorem GetBlockPtr_only_not_found {T : Type} (index : SharedDataIndex)
    (hl : layouts_agree index = true) (as : Block → Option T) (name : String)
    (hname : ∀ b, has_layout name b = true → (as b).isSome = true) :
    only_not_found index (index.GetBlockPtr as name) := by
  intro e he
  cases hlook : index.entries.lookup name with
  | none =>
    have habsent : isIndexed index name = false := by
      rw [isIndexed_eq_isSome, hlook]
      rfl
    rw [GetBlockPtr_not_indexed index as name habsent] at he
    simp only [Except.error.injEq] at he
    exact ⟨name, he.symm, habsent⟩
  | some b =>
    exfalso
    have hmem := lookup_mem _ _ _ hlook
    unfold layouts_agree at hl
    rw [List.all_eq_true] at hl
    have hb := hname b (hl (name, b) hmem)
    unfold SharedDataIndex.GetBlockPtr SharedDataIndex.resolve at he
    rw [hlook] at he
    cases hab : as b with
    | none => rw [hab] at hb; exact absurd hb (by simp)
    | some v => simp [hab] at he

theorem subscript_in_range {α : Type} (xs : List α) (i : Nat) (h : i < xs.length) :
    ∃ v, subscript xs i = .ok v := by
  unfold subscript
  rw [List.getElem?_eq_getElem h]
  exact ⟨_, rfl⟩

theorem construct_only_not_found (assertions : Bool) (index : SharedDataIndex)
    (metric_name : String) (exclude_index : Nat)
    (hl : layouts_agree index = true)
    (hx : ∀ properties,
      index.GetBlockPtr Block.as_properties "/common/properties" = .ok properties →
      exclude_index < properties.excludable_classes.length)
    (ha : assertions = false ∨ isIndexed index "/mld/connectivity_checksum" = true ∨
      isIndexed index "/ch/connectivity_checksum" = true ∨
      isIndexed index "/common/properties" = false) :
    only_not_found index (construct assertions index metric_name exclude_index) := by
  unfold construct InitializeInternalPointers
  simp only [make_timestamp_view, make_nbn_data_view, make_search_tree_view,
    make_ebn_data_view, make_turn_data_view, make_name_table_view,
    make_turn_lane_description_views, make_lane_data_view, make_turn_weight_view,
    make_turn_duration_view, make_segment_data_view, make_intersection_bearings_view,
    make_entry_classes_view, make_maneuver_overrides_views]
  have get : ∀ {T : Type} (as : Block → Option T) (name : String),
      (∀ b, has_layout name b = true → (as b).isSome = true) →
      only_not_found index (index.GetBlockPtr as name) :=
    fun as name hname => GetBlockPtr_only_not_found index hl as name hname
  refine only_not_found_bind _ _ _ (get _ _ (fun b hb => by simpa [has_layout] using hb))
    (fun props hprops => ?_)
  obtain ⟨mask, hmask⟩ := subscript_in_range _ _ (hx props hprops)
  refine only_not_found_bind _ _ _ (only_not_found_ok _ _ _ hmask) (fun _ _ => ?_)
  refine only_not_found_bind _ _ _ ?_ (fun _ _ => ?_)
  · by_cases hmld : isIndexed index "/mld/connectivity_checksum" = true
    · rw [if_pos hmld]
      exact get _ _ (fun b hb => by simpa [has_layout] using hb)
    · rw [if_neg hmld]
      have hassert : BOOST_ASSERT assertions (isIndexed index "/ch/connectivity_checksum")
          = .ok () := by
        unfold BOOST_ASSERT
        rcases ha with h | h | h | h
        · simp [h]
        · exact absurd h hmld
        · simp [h]
        · rw [GetBlockPtr_not_indexed _ _ _ h] at hprops
          exact absurd hprops (by simp)
      refine only_not_found_bind _ _ _ (only_not_found_ok _ _ _ hassert) (fun _ _ => ?_)
      exact get _ _ (fun b hb => by simpa [has_layout] using hb)
  refine only_not_found_bind _ _ _ (get _ _ (fun b hb => by simpa [has_layout] using hb))
    (fun _ _ => ?_)
  refine only_not_found_bind _ _ _ (get _ _ (fun b hb => by simpa [has_layout] using hb))
    (fun _ _ => ?_)
  refine only_not_found_bind _ _ _ (get _ _ (fun b hb => by simpa [has_layout] using hb))
    (fun _ _ => ?_)
  refine only_not_found_bind _ _ _ (get _ _ (fun b hb => by simpa [has_layout] using hb))
    (fun _ _ => ?_)
  refine only_not_found_bind _ _ _ ?_ (fun _ _ => ?_)
  · split
    · refine only_not_found_bind _ _ _
        (get _ _ (fun b hb => by simpa [has_layout] using hb)) (fun _ _ => ?_)
      exact only_not_found_ok _ _ _ rfl
    · exact only_not_found_ok _ _ _ rfl
  refine only_not_found_bind _ _ _ ?_ (fun _ _ => ?_)
  · split
    · refine only_not_found_bind _ _ _
        (get _ _ (fun b hb => by simpa [has_layout] using hb)) (fun _ _ => ?_)
      exact only_not_found_ok _ _ _ rfl
    · exact only_not_found_ok _ _ _ rfl
  refine only_not_found_bind _ _ _ ?_ (fun _ _ => ?_)
  · split
    · refine only_not_found_bind _ _ _
        (get _ _ (fun b hb => by
          simp only [has_layout, String.reduceEq, if_false, if_true, Bool.and_eq_true] at hb
          exact hb.1)) (fun _ _ => ?_)
      refine only_not_found_bind _ _ _
        (get _ _ (fun b hb => by
          simp only [has_layout, String.reduceEq, if_false, if_true, Bool.and_eq_true] at hb
          exact hb.2)) (fun _ _ => ?_)
      exact only_not_found_ok _ _ _ rfl
    · exact only_not_found_ok _ _ _ rfl
  refine only_not_found_bind _ _ _
    (get _ _ (fun b hb => by
      simp only [has_layout, String.reduceEq, if_false, if_true, Bool.and_eq_true] at hb
      exact hb.1)) (fun _ _ => ?_)
  refine only_not_found_bind _ _ _
    (get _ _ (fun b hb => by
      simp only [has_layout, String.reduceEq, if_false, if_true, Bool.and_eq_true] at hb
      exact hb.2)) (fun _ _ => ?_)
  refine only_not_found_bind _ _ _ (get _ _ (fun b hb => by simpa [has_layout] using hb))
    (fun _ _ => ?_)
  refine only_not_found_bind _ _ _ (get _ _ (fun b hb => by simpa [has_layout] using hb))
    (fun _ _ => ?_)
  refine only_not_found_bind _ _ _ ?_ (fun _ _ => ?_)
  · split
    · refine only_not_found_bind _ _ _
        (get _ _ (fun b hb => by simpa [has_layout] using hb)) (fun _ _ => ?_)
      refine only_not_found_bind _ _ _
        (get _ _ (fun b hb => by simpa [has_layout] using hb)) (fun _ _ => ?_)
      exact only_not_found_ok _ _ _ rfl
    · exact only_not_found_ok _ _ _ rfl
  refine only_not_found_bind _ _ _ (get _ _ (fun b hb => by simpa [has_layout] using hb))
    (fun _ _ => ?_)
  exact only_not_found_ok _ _ _ rfl

/-- C11, amended: the datasets `/common/properties`, `/common/timestamp`, `/common/nbn_data`,
`/common/rtree`, `/common/ebg_node_data`, `/common/turn_penalty`, `/common/segment_data`,
`/common/data_sources_names` and `/common/maneuver_overrides` are mandatory, the datasets
`/common/turn_data`, `/common/names`, `/common/turn_lanes` and `/common/intersection_bearings`
are not. First part: over any index that lacks a mandatory dataset the construction fails.
Second part: it then fails with the dataset-not-found failure of index resolution, for a
dataset that is not in the index, when the datasets of the index have the layouts their views
read, the exclusion index lies inside the table of excludable classes, and the build has no
assertions, or the index holds a connectivity checksum, or it lacks `/common/properties`. Third
part: in the case that is left, a build with assertions over an index that holds
`/common/properties` and neither connectivity checksum, the construction fails on the
assertion on the checksum instead. Fourth part: taking one mandatory dataset `d` out of
an index over which the construction succeeds makes it fail with the dataset-not-found failure
for `d`. Fifth part: taking any combination of the optional datasets out of such an index
leaves the construction successful. -/
theorem construct_mandatory_and_optional (assertions : Bool) (index : SharedDataIndex)
    (metric_name : String) (exclude_index : Nat) :
    (∀ d ∈ mandatory_datasets, isIndexed index d = false →
      ∃ e, construct assertions index metric_name exclude_index = .error e) ∧
    (∀ d ∈ mandatory_datasets, isIndexed index d = false →
      layouts_agree index = true →
      (∀ properties,
        index.GetBlockPtr Block.as_properties "/common/properties" = .ok properties →
        exclude_index < properties.excludable_classes.length) →
      (assertions = false ∨ isIndexed index "/mld/connectivity_checksum" = true ∨
        isIndexed index "/ch/connectivity_checksum" = true ∨
        isIndexed index "/common/properties" = false) →
      ∃ name, isIndexed index name = false ∧
        construct assertions index metric_name exclude_index
          = .error (.DatasetNotFound name)) ∧
    (assertions = true →
      isIndexed index "/mld/connectivity_checksum" = false →
      isIndexed index "/ch/connectivity_checksum" = false →
      ∀ properties,
        index.GetBlockPtr Block.as_properties "/common/properties" = .ok properties →
        exclude_index < properties.excludable_classes.length →
        construct assertions index metric_name exclude_index = .error .AssertionFailed) ∧
    (∀ f, construct assertions index metric_name exclude_index = .ok f →
      (∀ d ∈ mandatory_datasets,
        construct assertions (index_without index [d]) metric_name exclude_index
          = .error (.DatasetNotFound d)) ∧
      (∀ names, (∀ s ∈ names, s ∈ optional_datasets) →
        ∃ g, construct assertions (index_without index names) metric_name exclude_index
          = .ok g)) := by
  have hfails : ∀ d ∈ mandatory_datasets, isIndexed index d = false →
      ∃ e, construct assertions index metric_name exclude_index = .error e := ?_
  refine ⟨hfails, ?_, ?_, ?_⟩
  rotate_left 3
  · intro d hd habsent
    cases hc : construct assertions index metric_name exclude_index with
    | error e => exact ⟨e, rfl⟩
    | ok f =>
      exfalso
      unfold construct InitializeInternalPointers at hc
      simp only [bind_eq_ok] at hc
      obtain ⟨props, hprops, mask, hmask, sum, hsum, ts, hts, nbn, hnbn, rt, hrt, ebn, hebn,
        td, htd, nt, hnt, tl, htl, tw, htw, tdur, htdur, sd, hsd, ds, hds, br, hbr, mo, hmo,
        hf⟩ := hc
      simp only [mandatory_datasets, List.mem_cons, List.mem_singleton, List.not_mem_nil,
        or_false] at hd
      simp only [make_timestamp_view, make_nbn_data_view, make_search_tree_view,
        make_ebn_data_view, make_turn_weight_view, make_segment_data_view,
        make_maneuver_overrides_views] at hts hnbn hrt hebn htw hsd hmo
      rcases hd with rfl | rfl | rfl | rfl | rfl | rfl | rfl | rfl | rfl
      · rw [GetBlockPtr_not_indexed _ _ _ habsent] at hprops
        exact absurd hprops (by simp)
      · rw [GetBlockPtr_not_indexed _ _ _ habsent] at hts
        exact absurd hts (by simp)
      · rw [GetBlockPtr_not_indexed _ _ _ habsent] at hnbn
        exact absurd hnbn (by simp)
      · rw [GetBlockPtr_not_indexed _ _ _ habsent] at hrt
        exact absurd hrt (by simp)
      · rw [GetBlockPtr_not_indexed _ _ _ habsent] at hebn
        exact absurd hebn (by simp)
      · rw [GetBlockPtr_not_indexed _ _ _ habsent] at htw
        exact absurd htw (by simp)
      · rw [GetBlockPtr_not_indexed _ _ _ habsent] at hsd
        exact absurd hsd (by simp)
      · rw [GetBlockPtr_not_indexed _ _ _ habsent] at hds
        exact absurd hds (by simp)
      · rw [GetBlockPtr_not_indexed _ _ _ habsent] at hmo
        exact absurd hmo (by simp)
  · intro d hd habsent hl hx ha
    obtain ⟨e, he⟩ := hfails d hd habsent
    obtain ⟨name, hname, hnot⟩ :=
      construct_only_not_found assertions index metric_name exclude_index hl hx ha e he
    exact ⟨name, hnot, by rw [he, hname]⟩
  · intro hassert hmld hch properties hprops hin
    obtain ⟨mask, hmask⟩ := subscript_in_range _ _ hin
    unfold construct InitializeInternalPointers
    simp only [hprops, hmask, hmld, hch, hassert, ok_bind, error_bind, BOOST_ASSERT,
      Bool.false_eq_true, if_false, Bool.not_false, Bool.and_self, if_true]
  · intro f hc
    unfold construct InitializeInternalPointers at hc
    simp only [bind_eq_ok] at hc
    obtain ⟨props, hprops, mask, hmask, sum, hsum, ts, hts, nbn, hnbn, rt, hrt, ebn, hebn,
      td, htd, nt, hnt, tl, htl, tw, htw, tdur, htdur, sd, hsd, ds, hds, br, hbr, mo, hmo,
      hf⟩ := hc
    refine ⟨?_, ?_⟩
    · intro d hd
      simp only [mandatory_datasets, List.mem_cons, List.mem_singleton, List.not_mem_nil,
        or_false] at hd
      unfold construct InitializeInternalPointers
      rcases hd with rfl | rfl | rfl | rfl | rfl | rfl | rfl | rfl | rfl
      all_goals
        simp only [make_timestamp_view, make_nbn_data_view, make_search_tree_view,
          make_ebn_data_view, make_turn_data_view, make_name_table_view,
          make_turn_lane_description_views, make_lane_data_view, make_turn_weight_view,
          make_turn_duration_view, make_segment_data_view, make_intersection_bearings_view,
          make_entry_classes_view, make_maneuver_overrides_views] at *
        simp only [GetBlockPtr_without, isIndexed_without, List.contains_cons,
          List.contains_nil, String.reduceBEq, Bool.or_false, Bool.not_false, Bool.true_and,
          Bool.false_eq_true, if_false, if_true, hprops, hmask, hsum, hts, hnbn, hrt, hebn,
          htd, hnt, htl, htw, htdur, hsd, hds, hbr, hmo, ok_bind, error_bind]
    · intro names hsub
      have hnot : ∀ name, name ∉ optional_datasets → names.contains name = false := by
        intro name hname
        cases hc : names.contains name with
        | false => rfl
        | true => exact absurd (hsub name (by simpa using hc)) hname
      have m1 := hnot "/common/properties" (by decide)
      have m2 := hnot "/mld/connectivity_checksum" (by decide)
      have m3 := hnot "/ch/connectivity_checksum" (by decide)
      have m4 := hnot "/common/timestamp" (by decide)
      have m5 := hnot "/common/nbn_data" (by decide)
      have m6 := hnot "/common/rtree" (by decide)
      have m7 := hnot "/common/ebg_node_data" (by decide)
      have m8 := hnot "/common/turn_penalty" (by decide)
      have m9 := hnot "/common/segment_data" (by decide)
      have m10 := hnot "/common/data_sources_names" (by decide)
      have m11 := hnot "/common/entry_classes" (by decide)
      have m12 := hnot "/common/maneuver_overrides" (by decide)
      unfold construct InitializeInternalPointers
      simp only [make_timestamp_view, make_nbn_data_view, make_search_tree_view,
        make_ebn_data_view, make_turn_data_view, make_name_table_view,
        make_turn_lane_description_views, make_lane_data_view, make_turn_weight_view,
        make_turn_duration_view, make_segment_data_view, make_intersection_bearings_view,
        make_entry_classes_view, make_maneuver_overrides_views] at *
      cases c1 : names.contains "/common/turn_data" <;>
      cases c2 : names.contains "/common/names" <;>
      cases c3 : names.contains "/common/turn_lanes" <;>
      cases c4 : names.contains "/common/intersection_bearings" <;>
      simp only [GetBlockPtr_without, isIndexed_without, m1, m2, m3, m4, m5, m6, m7, m8, m9, m10,
        m11, m12, c1, c2, c3, c4, Bool.not_false, Bool.not_true, Bool.true_and, Bool.false_and,
        Bool.false_eq_true, if_false, hprops, hmask, hsum, hts, hnbn, hrt, hebn, htd, hnt, htl,
        htw, htdur, hsd, hds, hbr, hmo, ok_bind, pure_bind_except] <;>
      exact ⟨_, rfl⟩

theorem construct_mandatory_and_optional_witness :
    (isIndexed (index_without full_index ["/common/timestamp", "/common/rtree"])
        "/common/rtree" = false ∧
      (∃ e, construct true (index_without full_index ["/common/timestamp", "/common/rtree"])
        "duration" 1 = .error e) ∧
      (∃ name,
        isIndexed (index_without full_index ["/common/timestamp", "/common/rtree"]) name
          = false ∧
        construct true (index_without full_index ["/common/timestamp", "/common/rtree"])
          "duration" 1 = .error (.DatasetNotFound name)) ∧
      construct true (index_without full_index ["/common/timestamp", "/common/rtree"])
        "duration" 1 = .error (.DatasetNotFound "/common/timestamp")) ∧
    construct true no_checksum_index "duration" 1 = .error .AssertionFailed ∧
    (construct true full_index "duration" 1 = .ok full_facade ∧
      construct true (index_without full_index ["/common/segment_data"]) "duration" 1
        = .error (.DatasetNotFound "/common/segment_data")) ∧
    (∃ g, construct true (index_without full_index optional_datasets) "duration" 1 = .ok g) :=
  ⟨⟨by decide,
    (construct_mandatory_and_optional true
      (index_without full_index ["/common/timestamp", "/common/rtree"])
      "duration" 1).1 "/common/rtree" (by decide) (by decide),
    (construct_mandatory_and_optional true
      (index_without full_index ["/common/timestamp", "/common/rtree"])
      "duration" 1).2.1 "/common/rtree" (by decide) (by decide) (by decide)
      (fun properties h => by
        have h2 : (Except.ok sample_properties : Except Error ProfileProperties)
            = Except.ok properties := h
        cases h2
        decide)
      (Or.inr (Or.inl (by decide))),
    rfl⟩,
   (construct_mandatory_and_optional true no_checksum_index "duration" 1).2.2.1 rfl
     (by decide) (by decide) sample_properties rfl (by decide),
   ⟨construct_full_index true,
    ((construct_mandatory_and_optional true full_index "duration" 1).2.2.2 full_facade
      (construct_full_index true)).1 "/common/segment_data" (by decide)⟩,
   ((construct_mandatory_and_optional true full_index "duration" 1).2.2.2 full_facade
      (construct_full_index true)).2 optional_datasets (fun _ hs => hs)⟩

theorem construct_mandatory_counterexample :
    "/common/timestamp" ∈ mandatory_datasets ∧
    isIndexed no_checksum_index "/common/timestamp" = false ∧
    construct true no_checksum_index "duration" 1 = .error .AssertionFailed ∧
    ¬ ∃ name, construct true no_checksum_index "duration" 1 = .error (.DatasetNotFound name) :=
  ⟨by decide, by decide, rfl, fun ⟨name, h⟩ => by
    have h2 : (Except.error Error.AssertionFailed :
        Except Error ContiguousInternalMemoryDataFacadeBase)
        = Except.error (Error.DatasetNotFound name) := h
    simp at h2⟩

/-! ## The facade is only read -/

theorem read_only_pure {α : Type} (a : α) : read_only (pure a : Member α) :=
  fun _ => rfl

theorem read_only_read {α : Type} (member : ContiguousInternalMemoryDataFacadeBase → α) :
    read_only (read_member member) :=
  fun _ => rfl

theorem read_only_evaluate {α : Type} (x : Except Error α) : read_only (evaluate x) :=
  fun _ => rfl

theorem read_only_bind {α β : Type} (x : Member α) (k : α → Member β) (hx : read_only x)
    (hk : ∀ a, read_only (k a)) : read_only (x >>= k) := by
  intro self
  show (member_bind x k self).2 = self
  unfold member_bind
  have h := hx self
  cases hr : x self with
  | mk result after =>
    rw [hr] at h
    simp only at h
    subst h
    cases result with
    | ok a => exact hk a after
    | error e => rfl

theorem read_only_ite {α : Type} (c : Prop) [Decidable c] (x y : Member α) (hx : read_only x)
    (hy : read_only y) : read_only (if c then x else y) := by
  split
  · exact hx
  · exact hy

/-- An assignment is not read-only: the property `read_only` tells programs apart. -/
theorem assign_member_not_read_only :
    ¬ read_only
      (assign_member (fun self => { self with exclude_mask := self.exclude_mask + 1 })) := by
  intro h
  have h1 := congrArg ContiguousInternalMemoryDataFacadeBase.exclude_mask (h bare_facade)
  exact absurd h1 (by decide)

theorem member_read_only (assertions : Bool) (INVALID_LANE_DESCRIPTIONID : LaneDescriptionID)
    (ext : Collaborators) (op : Operation) :
    read_only (member assertions INVALID_LANE_DESCRIPTIONID ext op) := by
  cases op <;>
    simp only [member, GetCoordinateOfNode_body, GetOSMNodeIDOfNode_body,
      GetUncompressedForwardGeometry_body, GetUncompressedReverseGeometry_body,
      GetUncompressedForwardDurations_body, GetUncompressedReverseDurations_body,
      GetUncompressedForwardWeights_body, GetUncompressedReverseWeights_body,
      GetUncompressedForwardDatasources_body, GetUncompressedReverseDatasources_body,
      GetWeightPenaltyForEdgeID_body, GetDurationPenaltyForEdgeID_body,
      GetTurnInstructionForEdgeID_body, GetCheckSum_body, GetTimestamp_body,
      GetGeometryIndex_body, GetComponentID_body, GetTravelMode_body, GetClassData_body,
      ExcludeNode_body, GetNameIndex_body, GetNameForID_body, GetRefForID_body,
      GetPronunciationForID_body, GetDestinationsForID_body, GetExitsForID_body,
      GetDatasourceName_body, GetContinueStraightDefault_body, GetMapMatchingMaxSpeed_body,
      GetWeightName_body, GetWeightPrecision_body, GetWeightMultiplier_body, GetClasses_body,
      GetBearingClass_body, PreTurnBearing_body, PostTurnBearing_body, GetEntryClass_body,
      HasLaneData_body, GetLaneData_body, GetTurnDescription_body, IsLeftHandDriving_body,
      IsSegregated_body, GetOverridesThatStartAt_body, GetEdgesInBox_body,
      NearestPhantomNodesInRange_body, NearestPhantomNodes_body,
      NearestCandidatesWithAlternativeFromBigComponent_body] <;>
    repeat (first
      | exact read_only_pure _
      | exact read_only_read _
      | exact read_only_evaluate _
      | apply read_only_ite
      | apply read_only_bind
      | intro _)

theorem answers_pure {α : Type} (a : α) : answers (pure a : Member α) (fun _ => .ok a) :=
  fun _ => rfl

theorem answers_read {α : Type} (member : ContiguousInternalMemoryDataFacadeBase → α) :
    answers (read_member member) (fun self => .ok (member self)) :=
  fun _ => rfl

theorem answers_evaluate {α : Type} (x : Except Error α) : answers (evaluate x) (fun _ => x) :=
  fun _ => rfl

theorem answers_bind {α β : Type} (x : Member α) (k : α → Member β)
    (gx : ContiguousInternalMemoryDataFacadeBase → Except Error α)
    (gk : α → ContiguousInternalMemoryDataFacadeBase → Except Error β)
    (hx : answers x gx) (hk : ∀ a, answers (k a) (gk a)) :
    answers (x >>= k) (fun self => gx self >>= fun a => gk a self) := by
  intro self
  show member_bind x k self = (gx self >>= fun a => gk a self, self)
  unfold member_bind
  rw [hx self]
  cases gx self with
  | ok a => exact hk a self
  | error e => rfl

theorem answers_ite {α : Type} (c : Prop) [Decidable c] (x y : Member α)
    (gx gy : ContiguousInternalMemoryDataFacadeBase → Except Error α)
    (hx : answers x gx) (hy : answers y gy) :
    answers (if c then x else y) (fun self => if c then gx self else gy self) := by
  intro self
  split
  · exact hx self
  · exact hy self

theorem answers_of_eq {α : Type} (program : Member α)
    (accessor accessor' : ContiguousInternalMemoryDataFacadeBase → Except Error α)
    (h : answers program accessor') (heq : ∀ self, accessor' self = accessor self) :
    answers program accessor := by
  intro self
  rw [h self, heq self]

theorem map_eq_bind {α β : Type} (g : α → β) (x : Except Error α) :
    x.map g = x >>= fun v => pure (g v) := by
  cases x <;> rfl

/-- Each member function, as a program on the object, gives the answer of the accessor of the
same name and leaves the object as it found it. -/
theorem member_answers (assertions : Bool) (INVALID_LANE_DESCRIPTIONID : LaneDescriptionID)
    (ext : Collaborators) (op : Operation) :
    answers (member assertions INVALID_LANE_DESCRIPTIONID ext op)
      (fun self => call assertions INVALID_LANE_DESCRIPTIONID ext self op) := by
  cases op <;>
    simp only [member, GetCoordinateOfNode_body, GetOSMNodeIDOfNode_body,
      GetUncompressedForwardGeometry_body, GetUncompressedReverseGeometry_body,
      GetUncompressedForwardDurations_body, GetUncompressedReverseDurations_body,
      GetUncompressedForwardWeights_body, GetUncompressedReverseWeights_body,
      GetUncompressedForwardDatasources_body, GetUncompressedReverseDatasources_body,
      GetWeightPenaltyForEdgeID_body, GetDurationPenaltyForEdgeID_body,
      GetTurnInstructionForEdgeID_body, GetCheckSum_body, GetTimestamp_body,
      GetGeometryIndex_body, GetComponentID_body, GetTravelMode_body, GetClassData_body,
      ExcludeNode_body, GetNameIndex_body, GetNameForID_body, GetRefForID_body,
      GetPronunciationForID_body, GetDestinationsForID_body, GetExitsForID_body,
      GetDatasourceName_body, GetContinueStraightDefault_body, GetMapMatchingMaxSpeed_body,
      GetWeightName_body, GetWeightPrecision_body, GetWeightMultiplier_body, GetClasses_body,
      GetBearingClass_body, PreTurnBearing_body, PostTurnBearing_body, GetEntryClass_body,
      HasLaneData_body, GetLaneData_body, GetTurnDescription_body, IsLeftHandDriving_body,
      IsSegregated_body, GetOverridesThatStartAt_body, GetEdgesInBox_body,
      NearestPhantomNodesInRange_body, NearestPhantomNodes_body,
      NearestCandidatesWithAlternativeFromBigComponent_body] <;>
    (apply answers_of_eq
     case h =>
       repeat (first
         | exact answers_pure _
         | exact answers_read _
         | exact answers_evaluate _
         | apply answers_ite
         | apply answers_bind
         | intro _)
     case heq =>
       intro self
       simp only [call]
       try rw [map_eq_bind]
       rfl)

theorem run_object (assertions : Bool) (INVALID_LANE_DESCRIPTIONID : LaneDescriptionID)
    (ext : Collaborators) (f : ContiguousInternalMemoryDataFacadeBase) (ops : List Operation) :
    (run assertions INVALID_LANE_DESCRIPTIONID ext f ops).1 = f := by
  induction ops generalizing f with
  | nil => rfl
  | cons op ops ih =>
    have hstep : (step assertions INVALID_LANE_DESCRIPTIONID ext f op).1 = f :=
      member_read_only assertions INVALID_LANE_DESCRIPTIONID ext op f
    simp only [run, hstep]
    exact ih f

theorem run_answers (assertions : Bool) (INVALID_LANE_DESCRIPTIONID : LaneDescriptionID)
    (ext : Collaborators) (f : ContiguousInternalMemoryDataFacadeBase) (ops : List Operation) :
    (run assertions INVALID_LANE_DESCRIPTIONID ext f ops).2
      = ops.map (call assertions INVALID_LANE_DESCRIPTIONID ext f) := by
  induction ops generalizing f with
  | nil => rfl
  | cons op ops ih =>
    have hstep : step assertions INVALID_LANE_DESCRIPTIONID ext f op
        = (f, call assertions INVALID_LANE_DESCRIPTIONID ext f op) := by
      unfold step
      rw [member_answers assertions INVALID_LANE_DESCRIPTIONID ext op f]
    simp only [run, hstep, List.map_cons, ih]

/-- C12: after the construction with exclusion index `i` the exclude mask of the facade is
entry `i` of the table `excludable_classes` of the block `/common/properties`, and after every
sequence of calls of public member functions, each run as the program of its body on the
object the previous call left, the mask of the object is what it was right after the
construction; the calls of the sequence answer as they do on the object right after the
construction. -/
theorem exclude_mask_fixed (assertions : Bool) (index : SharedDataIndex)
    (metric_name : String) (i : Nat) (f : ContiguousInternalMemoryDataFacadeBase)
    (h : construct assertions index metric_name i = .ok f) :
    (∃ properties,
      index.GetBlockPtr Block.as_properties "/common/properties" = .ok properties ∧
      properties.excludable_classes[i]? = some f.exclude_mask) ∧
    (∀ (INVALID_LANE_DESCRIPTIONID : LaneDescriptionID) (ext : Collaborators)
      (ops : List Operation),
      (run assertions INVALID_LANE_DESCRIPTIONID ext f ops).1.exclude_mask = f.exclude_mask ∧
      (run assertions INVALID_LANE_DESCRIPTIONID ext f ops).2
        = ops.map (call assertions INVALID_LANE_DESCRIPTIONID ext f)) := by
  have hm := construct_members _ _ _ _ _ h
  refine ⟨⟨f.m_profile_properties, hm.1, ?_⟩, fun invalid ext ops => ⟨?_, run_answers _ _ _ _ _⟩⟩
  · have hsub := hm.2.1
    unfold subscript at hsub
    cases hget : f.m_profile_properties.excludable_classes[i]? with
    | none => rw [hget] at hsub; exact absurd hsub (by simp)
    | some v => rw [hget] at hsub; simpa using hsub
  · rw [run_object]

theorem exclude_mask_fixed_witness :
    construct false full_index "duration" 3 = .ok { full_facade with exclude_mask := 4 } ∧
    (∃ properties,
      full_index.GetBlockPtr Block.as_properties "/common/properties" = .ok properties ∧
      properties.excludable_classes[3]? = some 4) ∧
    (run false 65535 sample_collaborators { full_facade with exclude_mask := 4 }
      [Operation.ExcludeNode 4, Operation.GetNameForID 1, Operation.GetOverridesThatStartAt 3,
       Operation.GetEdgesInBox ⟨0, 0⟩ ⟨1, 1⟩, Operation.GetClasses 3,
       Operation.GetCheckSum]).1.exclude_mask = 4 :=
  ⟨rfl,
   (exclude_mask_fixed false full_index "duration" 3 { full_facade with exclude_mask := 4 }
     rfl).1,
   ((exclude_mask_fixed false full_index "duration" 3 { full_facade with exclude_mask := 4 }
     rfl).2 65535 sample_collaborators _).1⟩

/-- C17: the attribute facade does not depend on the metric name. The construction over one
index with one exclusion index gives the same outcome for any two metric names; two facades so
built have the same exclude mask, the same checksum and the same optional datasets present, and
every call gives the same answer on both. -/
theorem metric_name_unused (assertions : Bool) (index : SharedDataIndex)
    (metric_name₁ metric_name₂ : String) (exclude_index : Nat) :
    construct assertions index metric_name₁ exclude_index
      = construct assertions index metric_name₂ exclude_index ∧
    ∀ f₁ f₂, construct assertions index metric_name₁ exclude_index = .ok f₁ →
      construct assertions index metric_name₂ exclude_index = .ok f₂ →
      f₁.exclude_mask = f₂.exclude_mask ∧
      GetCheckSum f₁ = GetCheckSum f₂ ∧
      f₁.turn_data.isSome = f₂.turn_data.isSome ∧
      f₁.m_name_table.isSome = f₂.m_name_table.isSome ∧
      f₁.m_lane_description_offsets.isSome = f₂.m_lane_description_offsets.isSome ∧
      f₁.m_lane_description_masks.isSome = f₂.m_lane_description_masks.isSome ∧
      f₁.m_lane_tuple_id_pairs.isSome = f₂.m_lane_tuple_id_pairs.isSome ∧
      f₁.intersection_bearings_view.isSome = f₂.intersection_bearings_view.isSome ∧
      f₁.m_entry_class_table.isSome = f₂.m_entry_class_table.isSome ∧
      ∀ (checks : Bool) (INVALID_LANE_DESCRIPTIONID : LaneDescriptionID) (ext : Collaborators)
        (op : Operation),
        call checks INVALID_LANE_DESCRIPTIONID ext f₁ op
          = call checks INVALID_LANE_DESCRIPTIONID ext f₂ op := by
  have heq : construct assertions index metric_name₁ exclude_index
      = construct assertions index metric_name₂ exclude_index := rfl
  refine ⟨heq, fun f₁ f₂ h₁ h₂ => ?_⟩
  rw [heq, h₂] at h₁
  simp only [Except.ok.injEq] at h₁
  subst h₁
  exact ⟨rfl, rfl, rfl, rfl, rfl, rfl, rfl, rfl, rfl, fun _ _ _ _ => rfl⟩

theorem metric_name_unused_witness :
    construct true full_index "duration" 1 = .ok full_facade ∧
    construct true full_index "distance" 1 = .ok full_facade ∧
    ∀ (op : Operation),
      call true 65535 sample_collaborators full_facade op
        = call true 65535 sample_collaborators full_facade op :=
  ⟨rfl, rfl,
   ((metric_name_unused true full_index "duration" "distance" 1).2 full_facade full_facade
     rfl rfl).2.2.2.2.2.2.2.2.2 true 65535 sample_collaborators⟩

/-! ## Edge lookup on the graph views -/

theorem GraphView_FindEdge_found (SPECIAL_EDGEID : EdgeID) (g : GraphView)
    (source first last edge target : Nat)
    (hrange : g.GetAdjacentEdgeRange source = .ok (first, last))
    (hfirst : first ≤ edge) (hlast : edge < last)
    (htarget : g.GetTarget edge = .ok target) :
    g.GetTarget (g.FindEdge SPECIAL_EDGEID source target) = .ok target ∧
    first ≤ g.FindEdge SPECIAL_EDGEID source target ∧
    g.FindEdge SPECIAL_EDGEID source target < last := by
  have hnode : g.node_array[source]? = some (first, last) := by
    unfold GraphView.GetAdjacentEdgeRange subscript at hrange
    cases hget : g.node_array[source]? with
    | none => rw [hget] at hrange; exact absurd hrange (by simp)
    | some v => rw [hget] at hrange; simpa using hrange
  have hmem : edge ∈ List.range' first (last - first) := by
    rw [List.mem_range'_1]
    omega
  cases hfind : (List.range' first (last - first)).find?
      (fun edge =>
        match g.GetTarget edge with
        | .ok target' => target' == target
        | .error _ => false) with
  | none =>
    have hnone := List.find?_eq_none.mp hfind edge hmem
    simp [htarget] at hnone
  | some found =>
    have hp := List.find?_some hfind
    have hin := List.mem_of_find?_eq_some hfind
    rw [List.mem_range'_1] at hin
    have hres : g.FindEdge SPECIAL_EDGEID source target = found := by
      unfold GraphView.FindEdge
      simp only [hnode, hfind]
    rw [hres]
    refine ⟨?_, Nat.le_trans (Nat.le_refl _) hin.1, Nat.lt_of_lt_of_le hin.2 (by omega)⟩
    cases hgt : g.GetTarget found with
    | error e => simp [hgt] at hp
    | ok t =>
      simp only [hgt, beq_iff_eq] at hp
      rw [hp]

theorem GraphView_FindEdge_none (SPECIAL_EDGEID : EdgeID) (g : GraphView)
    (node_from node_to : NodeID)
    (hno : ∀ first last edge, g.GetAdjacentEdgeRange node_from = .ok (first, last) →
      first ≤ edge → edge < last → g.GetTarget edge ≠ .ok node_to) :
    g.FindEdge SPECIAL_EDGEID node_from node_to = SPECIAL_EDGEID := by
  unfold GraphView.FindEdge
  cases hnode : g.node_array[node_from]? with
  | none => rfl
  | some range =>
    obtain ⟨first, last⟩ := range
    have hrange : g.GetAdjacentEdgeRange node_from = .ok (first, last) := by
      unfold GraphView.GetAdjacentEdgeRange subscript
      rw [hnode]
    have hfind : (List.range' first (last - first)).find?
        (fun edge =>
          match g.GetTarget edge with
          | .ok target' => target' == node_to
          | .error _ => false) = none := by
      rw [List.find?_eq_none]
      intro edge hmem
      rw [List.mem_range'_1] at hmem
      have := hno first last edge hrange hmem.1 (by omega)
      cases hgt : g.GetTarget edge with
      | error e => simp
      | ok t =>
        simp only [beq_iff_eq, Bool.not_eq_true, decide_eq_false_iff_not]
        intro heq
        rw [hgt, heq] at this
        exact this rfl
    simp only [hfind]

/-- C13: on the graph view of either algorithm, for every edge `e` in the out-edge range of a
node `source`, `FindEdge(source, GetTarget(e))` returns an edge id of that range whose
`GetTarget` is `GetTarget(e)`, and for every pair of nodes without a connecting edge `FindEdge`
returns the "no edge" sentinel id. -/
theorem FindEdge_round_trip (SPECIAL_EDGEID : EdgeID) (ch : AlgorithmDataFacadeCH)
    (mld : AlgorithmDataFacadeMLD) :
    (∀ source first last edge target,
      ch.GetAdjacentEdgeRange source = .ok (first, last) → first ≤ edge → edge < last →
      ch.GetTarget edge = .ok target →
      ch.GetTarget (ch.FindEdge SPECIAL_EDGEID source target) = .ok target) ∧
    (∀ node_from node_to,
      (∀ first last edge, ch.GetAdjacentEdgeRange node_from = .ok (first, last) →
        first ≤ edge → edge < last → ch.GetTarget edge ≠ .ok node_to) →
      ch.FindEdge SPECIAL_EDGEID node_from node_to = SPECIAL_EDGEID) ∧
    (∀ source first last edge target,
      mld.GetAdjacentEdgeRange source = .ok (first, last) → first ≤ edge → edge < last →
      mld.GetTarget edge = .ok target →
      mld.GetTarget (mld.FindEdge SPECIAL_EDGEID source target) = .ok target) ∧
    (∀ node_from node_to,
      (∀ first last edge, mld.GetAdjacentEdgeRange node_from = .ok (first, last) →
        first ≤ edge → edge < last → mld.GetTarget edge ≠ .ok node_to) →
      mld.FindEdge SPECIAL_EDGEID node_from node_to = SPECIAL_EDGEID) :=
  ⟨fun source first last edge target hrange hfirst hlast htarget =>
     (GraphView_FindEdge_found SPECIAL_EDGEID ch.m_query_graph source first last edge target
       hrange hfirst hlast htarget).1,
   fun node_from node_to hno =>
     GraphView_FindEdge_none SPECIAL_EDGEID ch.m_query_graph node_from node_to hno,
   fun source first last edge target hrange hfirst hlast htarget =>
     (GraphView_FindEdge_found SPECIAL_EDGEID mld.query_graph source first last edge target
       hrange hfirst hlast htarget).1,
   fun node_from node_to hno =>
     GraphView_FindEdge_none SPECIAL_EDGEID mld.query_graph node_from node_to hno⟩

theorem FindEdge_round_trip_witness :
    AlgorithmDataFacadeCH.GetTarget ⟨sample_graph⟩
      (AlgorithmDataFacadeCH.FindEdge 4294967295 ⟨sample_graph⟩ 0 1) = .ok 1 ∧
    AlgorithmDataFacadeCH.FindEdge 4294967295 ⟨sample_graph⟩ 0 1 = 0 ∧
    AlgorithmDataFacadeMLD.FindEdge 4294967295 ⟨sample_graph⟩ 1 2 = 4294967295 :=
  ⟨(FindEdge_round_trip 4294967295 ⟨sample_graph⟩ ⟨sample_graph⟩).1 0 0 3 2 1 rfl
     (by decide) (by decide) rfl,
   rfl,
   (FindEdge_round_trip 4294967295 ⟨sample_graph⟩ ⟨sample_graph⟩).2.2.2 1 2
     (fun first last edge hrange hfirst hlast => by
       have hr : (first, last) = (3, 3) := by
         have : (Except.ok (3, 3) : Except Error (Nat × Nat)) = .ok (first, last) := hrange
         simp only [Except.ok.injEq] at this
         exact this.symm
       simp only [Prod.mk.injEq] at hr
       omega)⟩

end Datafacade

namespace Updater

theorem extract_token_of_token (token : List Char) (h : ∀ c ∈ token, isspace c = false) :
    extract_token token = (token, []) := by
  have hdrop : token.dropWhile isspace = token := by
    cases token with
    | nil => rfl
    | cons c rest =>
      have := h c (List.mem_cons_self _ _)
      simp [List.dropWhile_cons, this]
  have htake : token.takeWhile (fun c => !isspace c) = token := by
    rw [List.takeWhile_eq_self_iff]
    intro c hc
    simp [h c hc]
  have hrest : token.dropWhile (fun c => !isspace c) = [] := by
    rw [List.dropWhile_eq_nil_iff]
    intro c hc
    simp [h c hc]
  unfold extract_token
  simp only [hdrop, htake, hrest]

/-- C18: reading undoes writing for `SpeedAndTurnPenaltyFormat`, whatever the case of the
letters. First part: `operator>>` on what `operator<<` writes for a format `f` sets the format
to `f`. Second part: so does `operator>>` on every token that lower-cases to that text. Third
part: every token that lower-cases to neither "csv" nor "parquet" is rejected with the
validation error and the format is left as it was; fourth part: so is the empty token. -/
theorem format_round_trip :
    (∀ f format, operator_extract (operator_insert [] f) format = (f, .ok [])) ∧
    (∀ f token format, (∀ c ∈ token, isspace c = false) →
      token.map tolower = operator_insert [] f →
      operator_extract token format = (f, .ok [])) ∧
    (∀ token format, (∀ c ∈ token, isspace c = false) →
      token.map tolower ≠ ['c', 's', 'v'] →
      token.map tolower ≠ ['p', 'a', 'r', 'q', 'u', 'e', 't'] →
      operator_extract token format = (format, .error .invalid_option_value)) ∧
    (∀ format, operator_extract [] format = (format, .error .invalid_option_value)) := by
  refine ⟨?_, ?_, ?_, ?_⟩
  · intro f format
    cases f <;> rfl
  · intro f token format hws hlower
    unfold operator_extract
    rw [extract_token_of_token token hws]
    cases f with
    | CSV =>
      have h1 : token.map tolower = ['c', 's', 'v'] := hlower
      simp only [h1, if_true]
    | PARQUET =>
      have h1 : token.map tolower = ['p', 'a', 'r', 'q', 'u', 'e', 't'] := hlower
      have h2 : token.map tolower ≠ ['c', 's', 'v'] := by
        rw [h1]
        decide
      simp only [h1, if_true]
      rw [if_neg (by decide)]
  · intro token format hws hcsv hparquet
    unfold operator_extract
    rw [extract_token_of_token token hws]
    simp only [if_neg hcsv, if_neg hparquet]
  · intro format
    rfl

theorem format_round_trip_witness :
    operator_extract ['C', 'S', 'V'] SpeedAndTurnPenaltyFormat.PARQUET
      = (SpeedAndTurnPenaltyFormat.CSV, .ok []) ∧
    operator_extract ['P', 'a', 'R', 'q', 'U', 'e', 'T'] SpeedAndTurnPenaltyFormat.CSV
      = (SpeedAndTurnPenaltyFormat.PARQUET, .ok []) ∧
    operator_extract ['j', 's', 'o', 'n'] SpeedAndTurnPenaltyFormat.PARQUET
      = (SpeedAndTurnPenaltyFormat.PARQUET, .error .invalid_option_value) :=
  ⟨format_round_trip.2.1 .CSV ['C', 'S', 'V'] .PARQUET (by decide) (by decide),
   format_round_trip.2.1 .PARQUET ['P', 'a', 'R', 'q', 'U', 'e', 'T'] .CSV (by decide)
     (by decide),
   format_round_trip.2.2.1 ['j', 's', 'o', 'n'] .PARQUET (by decide) (by decide) (by decide)⟩

end Updater
